import Mathlib

/-!
Verification development for the `text_RPG_battle_sys` turn-based combat
engine.  Python sources (battle_system/…) are shallowly embedded: dicts
become insertion-ordered association lists, mutation becomes explicit
state passing, `random.randint` becomes an oracle list of rolls, and
`ValueError` / `KeyError` / `AssertionError` become `Except String`.
Python `float` arithmetic in the index formulas is embedded as exact
integer-fraction arithmetic (each formula over its common denominator,
truncated with `Int.tdiv`); on every input considered here all Python float
intermediates are exactly representable, so the two coincide.
-/

set_option autoImplicit false

namespace BattleSys

/-- Combatant ids (`CombatantID = NewType("CombatantID", str)`). -/
abbrev CombatantID := String

/-- Group ids (`GroupID = NewType("GroupID", int)`). -/
abbrev GroupID := Int

/-- Team tags (`TeamID = Literal["ALLY", "ENEMY"]`). -/
inductive Team where
  | ALLY
  | ENEMY
deriving DecidableEq, Repr

/-- Innate basic-attack ranges (`AttackRange = Literal["MELEE", "RANGED"]`). -/
inductive AttackRange where
  | MELEE
  | RANGED
deriving DecidableEq, Repr

/-- Six-attribute stat block (`core/models.py::Stats`); Python ints. -/
structure Stats where
  str : Int
  agi : Int
  con : Int
  int : Int
  wis : Int
  cha : Int
deriving DecidableEq, Repr

/-- Immutable combatant definition (`core/models.py::CharacterDef`). -/
structure CharacterDef where
  cid : CombatantID
  name : String
  level : Int
  stats : Stats
  max_hp : Int
  basic_attack_range : AttackRange := .MELEE
deriving DecidableEq, Repr

/-- One stacked buff/debuff instance (`core/models.py::ModifierInstance`).
The source draws `mid` from `uuid.uuid4().hex`; here the id comes from a
fresh-name counter threaded through the engine, which models exactly the
uniqueness contract of the uuid generator. -/
structure ModifierInstance where
  mid : Nat
  key : String
  delta : Int
  ticks_left : Int
deriving DecidableEq, Repr

/-- Mutable per-battle combatant state (`core/models.py::CombatantState`).
The field `hp` is the stored `_hp`; all engine writes go through
`CombatantState.setHp` which embeds the Python `hp` property setter. -/
structure CombatantState where
  cid : CombatantID
  team : Team
  max_hp : Int
  hp : Int
  group_id : GroupID
  can_main : Bool := true
  can_sub : Bool := true
  cooldowns : List (String × Int) := []
  effects : List (String × Int) := []
  modifiers : List ModifierInstance := []
  flags : List String := []
deriving DecidableEq, Repr

/-- `CombatantState.__post_init__`: on construction `_hp` is clamped from
below only (`self._hp = max(0, int(self._hp))`). -/
def mkCombatantState (cid : CombatantID) (team : Team) (max_hp hp : Int)
    (group_id : GroupID) : CombatantState :=
  { cid := cid, team := team, max_hp := max_hp, hp := max 0 hp,
    group_id := group_id }

/-- `CombatantState._clamp_hp`: clamp a candidate HP value into `[0, max_hp]`. -/
def clamp_hp (max_hp v : Int) : Int :=
  if v < 0 then 0 else if v > max_hp then max_hp else v

/-- The `hp` property setter: every write is clamped at the write itself. -/
def CombatantState.setHp (st : CombatantState) (v : Int) : CombatantState :=
  { st with hp := clamp_hp st.max_hp v }

/-- `CombatantState.is_down`: derived predicate, `self._hp <= 0`. -/
def CombatantState.is_down (st : CombatantState) : Bool :=
  st.hp ≤ 0

/-- Whole-battle state (`core/models.py::BattleState`).  Python dicts are
insertion-ordered association lists. -/
structure BattleState where
  defs : List (CombatantID × CharacterDef)
  combatants : List (CombatantID × CombatantState)
  turn_order : List CombatantID
  turn_index : Nat := 0
  tick : Nat := 0
  groups : List (GroupID × List CombatantID) := []
  ended : Bool := false
deriving DecidableEq, Repr

/-- `BattleState.current_actor_id`: `self.turn_order[self.turn_index]`
(raises `IndexError` when out of range). -/
def BattleState.current_actor_id (bs : BattleState) : Except String CombatantID :=
  match bs.turn_order.get? bs.turn_index with
  | some cid => .ok cid
  | none => .error "IndexError: turn_order"

/-- Association-list lookup, embedding `d[k]` / `d.get(k)` on a Python dict. -/
def aGet {κ α : Type} [DecidableEq κ] (k : κ) : List (κ × α) → Option α
  | [] => none
  | p :: ps => if p.1 = k then some p.2 else aGet k ps

/-- Association-list store, embedding `d[k] = v` on a Python dict: replace
in place when the key exists, otherwise append at the end. -/
def aSet {κ α : Type} [DecidableEq κ] (k : κ) (v : α) : List (κ × α) → List (κ × α)
  | [] => [(k, v)]
  | p :: ps => if p.1 = k then (k, v) :: ps else p :: aSet k v ps

/-- Association-list delete, embedding `del d[k]` (keys are unique in a dict,
so deleting the first occurrence is exact). -/
def aDel {κ α : Type} [DecidableEq κ] (k : κ) : List (κ × α) → List (κ × α)
  | [] => []
  | p :: ps => if p.1 = k then ps else p :: aDel k ps

/-- Update a combatant entry in the battle state (in-place mutation of
`bs.combatants[cid]` in the source). -/
def BattleState.setC (bs : BattleState) (cid : CombatantID) (st : CombatantState) :
    BattleState :=
  { bs with combatants := aSet cid st bs.combatants }

/-- Lookup of `bs.combatants[cid]` as an `Option`. -/
def BattleState.getC (bs : BattleState) (cid : CombatantID) : Option CombatantState :=
  aGet cid bs.combatants

/-! ## Timebase (`timebase/durations.py`) -/

/-- `turns_to_ticks(turns, participant_count) = turns * participant_count + 1`;
negative `turns` and `participant_count <= 0` raise `ValueError`. -/
def turns_to_ticks (turns participant_count : Int) : Except String Int :=
  if turns < 0 then .error "turns must be >= 0"
  else if participant_count ≤ 0 then .error "participant_count must be >= 1"
  else .ok (turns * participant_count + 1)

/-- `ticks_to_turns(ticks, participant_count) = ticks // participant_count`
with negative `ticks` clamped to 0 first (`//` is Python floor division). -/
def ticks_to_turns (ticks participant_count : Int) : Except String Int :=
  let x := if ticks < 0 then 0 else ticks
  if participant_count ≤ 0 then .error "participant_count must be >= 1"
  else .ok (Int.fdiv x participant_count)

/-- `turns_to_ticks_for_battle`: participant count is `len(bs.turn_order)`. -/
def turns_to_ticks_for_battle (bs : BattleState) (turns : Int) : Except String Int :=
  turns_to_ticks turns bs.turn_order.length

/-! ## Indices (`rules/indices/hit.py`, `crit`, `status.py`, `facade.py`)

Python computes the crit and resist formulas in `float` and converts with
`int(...)` (truncation toward zero).  The embedding computes each formula
exactly as a single integer fraction `num / den` (the per-row common
denominator is written out, e.g. `p/2 + s/4` becomes `(2*p + s) / 4`) and
truncates with `Int.tdiv`, which is truncation toward zero — exactly
`int(...)`.  On inputs whose float intermediates are exactly representable
(all inputs appearing in the claims) this agrees with the source. -/

/-- `HIT_BASE` from `hit.py`. -/
def HIT_BASE : Int := 40

/-- `compute_hit_index(level) = 40 + level`. -/
def compute_hit_index (level : Int) : Int :=
  HIT_BASE + level

/-- `compute_evade_index(stats) = int((hi*2 + lo)/3)` where `hi`/`lo` are the
larger/smaller of AGI and WIS. -/
def compute_evade_index (stats : Stats) : Int :=
  let a := stats.agi
  let w := stats.wis
  let hi := if a ≥ w then a else w
  let lo := if a ≥ w then w else a
  Int.tdiv (hi * 2 + lo) 3

/-- Result pair of `compute_hit_indices`. -/
structure HitIndices where
  hit : Int
  evade : Int
deriving DecidableEq, Repr

/-- `compute_hit_indices(attacker_level, defender_stats)`. -/
def compute_hit_indices (attacker_level : Int) (defender_stats : Stats) : HitIndices :=
  { hit := compute_hit_index attacker_level,
    evade := compute_evade_index defender_stats }

/-- The crit-resolution stat of a skill (`CritStat = Literal["STR","AGI","INT","WIS"]`). -/
inductive CritStat where
  | STR
  | AGI
  | INT
  | WIS
deriving DecidableEq, Repr

/-- The six rarity tiers of `level_to_rarity`; constructors correspond, in
order, to the source's Korean tier strings (junk, common, uncommon, rare,
precious, legend). -/
inductive Rarity where
  | junk
  | common
  | uncommon
  | rare
  | precious
  | legend
deriving DecidableEq, Repr

/-- `level_to_rarity`: level buckets `<=3, 4..8, 9..12, 13..16, 17..19, >=20`. -/
def level_to_rarity (level : Int) : Rarity :=
  if level ≤ 3 then .junk
  else if level ≤ 8 then .common
  else if level ≤ 12 then .uncommon
  else if level ≤ 16 then .rare
  else if level ≤ 19 then .precious
  else .legend

/-- `BASE_WEAK` balance constant. -/
def BASE_WEAK : Int := 20

/-- `BASE_STRONG` balance constant. -/
def BASE_STRONG : Int := 0

/-- `BASE_CRIT` balance constant. -/
def BASE_CRIT : Int := 0

/-- A formula value as an exact integer fraction `num / den` with `den > 0`. -/
structure Frac where
  num : Int
  den : Int
deriving DecidableEq, Repr

/-- `int(_clamp_nonneg(x))` on a fraction: 0 when the value is ≤ 0,
otherwise truncation toward zero (Python `int`). -/
def trunc_clamp (x : Frac) : Int :=
  if 0 < x.num then Int.tdiv x.num x.den else 0

/-- `_calc_strength_like(rarity, primary)`: (weak, strong, crit) indices of
the "strength weapon" family, each row written over its common denominator:
e.g. the uncommon row `(20 + (14 - p), 0 + p*1.5, 0 + p/3)` becomes
`((20 + 14 - p)/1, (0 + 3*p)/2, (0 + p)/3)`. -/
def calc_strength_like (rarity : Rarity) (primary : Int) : Frac × Frac × Frac :=
  match rarity with
  | .junk =>
    (⟨BASE_WEAK + (20 - primary), 1⟩, ⟨BASE_STRONG * 2 + primary, 2⟩, ⟨BASE_CRIT + 0, 1⟩)
  | .common =>
    (⟨BASE_WEAK + (17 - primary), 1⟩, ⟨BASE_STRONG + primary, 1⟩, ⟨BASE_CRIT * 5 + primary, 5⟩)
  | .uncommon =>
    (⟨BASE_WEAK + (14 - primary), 1⟩, ⟨BASE_STRONG * 2 + 3 * primary, 2⟩, ⟨BASE_CRIT * 3 + primary, 3⟩)
  | .rare =>
    (⟨BASE_WEAK + (11 - primary), 1⟩, ⟨BASE_STRONG + primary * 2, 1⟩, ⟨BASE_CRIT * 2 + primary, 2⟩)
  | .precious =>
    (⟨BASE_WEAK + (8 - primary), 1⟩, ⟨BASE_STRONG + primary * 3, 1⟩, ⟨BASE_CRIT + primary, 1⟩)
  | .legend =>
    (⟨BASE_WEAK + (5 - primary), 1⟩, ⟨BASE_STRONG * 2 + 7 * primary, 2⟩, ⟨BASE_CRIT * 2 + 3 * primary, 2⟩)

/-- `_calc_agility_like(rarity, primary, secondary)`: (weak, strong, crit)
indices of the "agility weapon" family, each row written over its common
denominator: e.g. the uncommon row
`(20 + (25 - p), 0 + p*1.5 + s/2, 0 + p/2 + s/5)` becomes
`((20 + 25 - p)/1, (0 + 3*p + s)/2, (0 + 5*p + 2*s)/10)`. -/
def calc_agility_like (rarity : Rarity) (primary secondary : Int) : Frac × Frac × Frac :=
  match rarity with
  | .junk =>
    (⟨BASE_WEAK + (30 - primary), 1⟩, ⟨BASE_STRONG * 4 + 2 * primary + secondary, 4⟩,
     ⟨BASE_CRIT + 0, 1⟩)
  | .common =>
    (⟨BASE_WEAK + (27 - primary), 1⟩, ⟨BASE_STRONG * 3 + 3 * primary + secondary, 3⟩,
     ⟨BASE_CRIT * 20 + 5 * primary + 4 * secondary, 20⟩)
  | .uncommon =>
    (⟨BASE_WEAK + (25 - primary), 1⟩, ⟨BASE_STRONG * 2 + 3 * primary + secondary, 2⟩,
     ⟨BASE_CRIT * 10 + 5 * primary + 2 * secondary, 10⟩)
  | .rare =>
    (⟨BASE_WEAK + (23 - primary), 1⟩, ⟨BASE_STRONG * 2 + 4 * primary + secondary, 2⟩,
     ⟨BASE_CRIT * 5 + 5 * primary + secondary, 5⟩)
  | .precious =>
    (⟨BASE_WEAK + (20 - primary), 1⟩, ⟨BASE_STRONG * 2 + 4 * primary + secondary, 2⟩,
     ⟨BASE_CRIT * 5 + 6 * primary + secondary, 5⟩)
  | .legend =>
    (⟨BASE_WEAK + (18 - primary), 1⟩, ⟨BASE_STRONG * 2 + 5 * primary + secondary, 2⟩,
     ⟨BASE_CRIT * 5 + 9 * primary + secondary, 5⟩)

/-- Result triple of `compute_crit_indices` (`rules/indices` `CritIndices`). -/
structure CritIndices where
  weak : Int
  strong : Int
  crit : Int
deriving DecidableEq, Repr

/-- `compute_crit_indices`: pick the coefficient family from the crit stat,
the formula row from the level-derived rarity, clamp at 0, truncate to int. -/
def compute_crit_indices (attacker_level : Int) (attacker_stats : Stats)
    (crit_stat : CritStat) : CritIndices :=
  let rarity := level_to_rarity attacker_level
  let wsc :=
    match crit_stat with
    | .STR => calc_strength_like rarity attacker_stats.str
    | .INT => calc_strength_like rarity attacker_stats.int
    | .AGI => calc_agility_like rarity attacker_stats.agi attacker_stats.str
    | .WIS => calc_agility_like rarity attacker_stats.wis attacker_stats.int
  { weak := trunc_clamp wsc.1,
    strong := trunc_clamp wsc.2.1,
    crit := trunc_clamp wsc.2.2 }

/-- Auxiliary resist stats (`ResistStat = Optional[Literal["STR","AGI","INT","WIS"]]`,
the `Optional` handled at use sites). -/
inductive ResistStat where
  | STR
  | AGI
  | INT
  | WIS
deriving DecidableEq, Repr

/-- `STATUS_RESIST_STAT` table: outer `none` = unknown status id (raises),
inner `none` = status with no auxiliary stat. -/
def STATUS_RESIST_STAT (status_id : String) : Option (Option ResistStat) :=
  if status_id = "BLEEDING" then some (some .STR)
  else if status_id = "POISONED" then some none
  else if status_id = "BURNED" then some none
  else if status_id = "FROSTBITE" then some none
  else if status_id = "STUN" then some (some .STR)
  else if status_id = "CONFUSION" then some (some .WIS)
  else if status_id = "FEAR" then some (some .INT)
  else if status_id = "CORRUPTION" then some none
  else if status_id = "CURSE" then some (some .INT)
  else if status_id = "WEAKNESS" then some (some .STR)
  else if status_id = "DECAY" then some (some .WIS)
  else if status_id = "BIND" then some (some .STR)
  else if status_id = "BLIND" then some (some .INT)
  else if status_id = "SLOW" then some (some .AGI)
  else if status_id = "PARALYSIS" then some (some .STR)
  else if status_id = "INSTANT_DEATH" then some none
  else if status_id = "FROZEN" then some none
  else if status_id = "OBLIVION" then some (some .INT)
  else none

/-- Result of `compute_status_resist_index`. -/
structure StatusResistIndex where
  value : Int
  resistible : Bool
deriving DecidableEq, Repr

/-- Projection of an auxiliary resist stat out of a stat block. -/
def resistStatVal (stats : Stats) : ResistStat → Int
  | .STR => stats.str
  | .AGI => stats.agi
  | .INT => stats.int
  | .WIS => stats.wis

/-- `compute_status_resist_index`: `CON + 0.5*aux` (truncated), `1.5*CON` when
no auxiliary stat; `INSTANT_DEATH` is categorically non-resistible; unknown
status ids raise `ValueError`. -/
def compute_status_resist_index (stats : Stats) (status_id : String) :
    Except String StatusResistIndex :=
  match STATUS_RESIST_STAT status_id with
  | none => .error ("Unknown status_id: " ++ status_id)
  | some aux =>
    if status_id = "INSTANT_DEATH" then .ok { value := 0, resistible := false }
    else
      let con := stats.con
      match aux with
      | none => .ok { value := Int.tdiv (3 * con) 2, resistible := true }
      | some a =>
        .ok { value := Int.tdiv (2 * con + resistStatVal stats a) 2,
              resistible := true }

/-! ## Index facade (`rules/indices/facade.py`) -/

/-- Facade pair of hit/evade indices. -/
structure HitEvasionIndices where
  hit : Int
  evade : Int
deriving DecidableEq, Repr

/-- Facade triple of crit indices (`facade.py` `CritIndices`). -/
structure FacadeCritIndices where
  weak : Int
  strong : Int
  critical : Int
deriving DecidableEq, Repr

/-- Combined attack indices. -/
structure AttackIndices where
  hit_eva : HitEvasionIndices
  crit : FacadeCritIndices
deriving DecidableEq, Repr

/-- Caller-supplied additive index modifiers; all-zero by default. -/
structure IndexModifiers where
  hit : Int := 0
  evade : Int := 0
  weak : Int := 0
  strong : Int := 0
  critical : Int := 0
deriving DecidableEq, Repr

/-- `_apply_mod(v, dv) = max(0, v + dv)`. -/
def apply_mod (v dv : Int) : Int :=
  max 0 (v + dv)

/-- `compute_base_hit_evasion`: read `bs.defs` for both sides
(`KeyError` when a definition is missing). -/
def compute_base_hit_evasion (bs : BattleState) (attacker defender : CombatantID) :
    Except String HitEvasionIndices :=
  match aGet attacker bs.defs, aGet defender bs.defs with
  | some atk, some dfn =>
    .ok { hit := compute_hit_index atk.level, evade := compute_evade_index dfn.stats }
  | _, _ => .error "KeyError: defs"

/-- `compute_base_crit`. -/
def compute_base_crit (bs : BattleState) (attacker : CombatantID) (crit_stat : CritStat) :
    Except String FacadeCritIndices :=
  match aGet attacker bs.defs with
  | some atk =>
    let ci := compute_crit_indices atk.level atk.stats crit_stat
    .ok { weak := ci.weak, strong := ci.strong, critical := ci.crit }
  | none => .error "KeyError: defs"

/-- `compute_attack_indices`: base indices plus additive modifiers, each
clamped at 0. -/
def compute_attack_indices (bs : BattleState) (attacker defender : CombatantID)
    (crit_stat : CritStat) (modifiers : IndexModifiers) : Except String AttackIndices :=
  match compute_base_hit_evasion bs attacker defender with
  | .error e => .error e
  | .ok base_he =>
    match compute_base_crit bs attacker crit_stat with
    | .error e => .error e
    | .ok base_crit =>
      .ok { hit_eva := { hit := apply_mod base_he.hit modifiers.hit,
                         evade := apply_mod base_he.evade modifiers.evade },
            crit := { weak := apply_mod base_crit.weak modifiers.weak,
                      strong := apply_mod base_crit.strong modifiers.strong,
                      critical := apply_mod base_crit.critical modifiers.critical } }

/-! ## Checks (`rules/checks.py`)

`random.randint(1, total)` becomes an oracle: the head of a list of
pre-chosen rolls, coerced to `1` when it is not a legal draw.  Every Python
execution corresponds to the oracle list of its actual rolls, and every
oracle value lies in `[1, total]` whenever `total ≥ 1`. -/

/-- Draw the next roll from the oracle (`random.randint(1, total)`). -/
def randint1 (total : Int) : List Int → Int × List Int
  | [] => (1, [])
  | r :: rest => (if 1 ≤ r ∧ r ≤ total then r else 1, rest)

/-- Hit-check outcomes. -/
inductive HitOutcome where
  | HIT
  | EVADE
deriving DecidableEq, Repr

/-- Crit-check outcomes (no miss outcome once a hit lands). -/
inductive CritOutcome where
  | WEAK
  | STRONG
  | CRITICAL
deriving DecidableEq, Repr

/-- `HitResult` record. -/
structure HitResult where
  outcome : HitOutcome
  roll : Int
  hit_index : Int
  evade_index : Int
  total : Int
deriving DecidableEq, Repr

/-- `CritResult` record. -/
structure CritResult where
  outcome : CritOutcome
  roll : Int
  weak_index : Int
  strong_index : Int
  crit_index : Int
  total : Int
deriving DecidableEq, Repr

/-- `StatusCheckResult` record: `success = True` means the status lands. -/
structure StatusCheckResult where
  success : Bool
  roll : Int
deriving DecidableEq, Repr

/-- `hit_check`: weighted draw over `[HIT, EVADE]`; indices must be
nonnegative with a positive total. -/
def hit_check (hit_index evade_index : Int) (rolls : List Int) :
    Except String (HitResult × List Int) :=
  if hit_index < 0 ∨ evade_index < 0 then
    .error "hit_index and evade_index must be >= 0"
  else
    let total := hit_index + evade_index
    if total ≤ 0 then .error "hit_index + evade_index must be > 0"
    else
      let rr := randint1 total rolls
      .ok ({ outcome := if rr.1 ≤ hit_index then .HIT else .EVADE,
             roll := rr.1, hit_index := hit_index, evade_index := evade_index,
             total := total }, rr.2)

/-- `crit_check`: weighted draw over `[WEAK, STRONG, CRITICAL]`. -/
def crit_check (weak_index strong_index crit_index : Int) (rolls : List Int) :
    Except String (CritResult × List Int) :=
  if weak_index < 0 ∨ strong_index < 0 ∨ crit_index < 0 then
    .error "indices must be >= 0"
  else
    let total := weak_index + strong_index + crit_index
    if total ≤ 0 then .error "weak+strong+crit must be > 0"
    else
      let rr := randint1 total rolls
      .ok ({ outcome :=
               if rr.1 ≤ weak_index then .WEAK
               else if rr.1 ≤ weak_index + strong_index then .STRONG
               else .CRITICAL,
             roll := rr.1, weak_index := weak_index, strong_index := strong_index,
             crit_index := crit_index, total := total }, rr.2)

/-- `roll_status_success`: weighted status draw, `success = roll <= inflict`. -/
def roll_status_success (inflict resist : Int) (rolls : List Int) :
    Except String (StatusCheckResult × List Int) :=
  if inflict < 0 ∨ resist < 0 then .error "inflict/resist must be >= 0"
  else if inflict = 0 ∧ resist = 0 then .error "inflict+resist must be > 0"
  else
    let total := inflict + resist
    let rr := randint1 total rolls
    .ok ({ success := rr.1 ≤ inflict, roll := rr.1 }, rr.2)

/-! ## Basic attack (`rules/basic_attack.py`) -/

/-- Attack outcomes as recorded in the result dict. -/
inductive AttackOutcome where
  | EVADE
  | WEAK
  | STRONG
  | CRITICAL
deriving DecidableEq, Repr

/-- Printable form of an attack outcome (the source's outcome strings). -/
def AttackOutcome.str : AttackOutcome → String
  | .EVADE => "EVADE"
  | .WEAK => "WEAK"
  | .STRONG => "STRONG"
  | .CRITICAL => "CRITICAL"

/-- Lift a crit outcome into an attack outcome. -/
def critToOutcome : CritOutcome → AttackOutcome
  | .WEAK => .WEAK
  | .STRONG => .STRONG
  | .CRITICAL => .CRITICAL

/-- `DAMAGE_TABLE = {"WEAK": 1, "STRONG": 3, "CRITICAL": 9}`. -/
def DAMAGE_TABLE : CritOutcome → Int
  | .WEAK => 1
  | .STRONG => 3
  | .CRITICAL => 9

/-- The result dict of `basic_attack`. -/
structure AttackResult where
  hit : Bool
  outcome : AttackOutcome
  damage : Int
deriving DecidableEq, Repr

/-- `basic_attack`: indices → hit check (EVADE aborts with 0 damage) → crit
check → fixed damage table → subtract from defender HP through the clamping
setter. -/
def basic_attack (bs : BattleState) (attacker defender : CombatantID)
    (modifiers : IndexModifiers) (crit_stat : CritStat) (rolls : List Int) :
    Except String (AttackResult × BattleState × List Int) :=
  match compute_attack_indices bs attacker defender crit_stat modifiers with
  | .error e => .error e
  | .ok indices =>
    match hit_check indices.hit_eva.hit indices.hit_eva.evade rolls with
    | .error e => .error e
    | .ok (hit, rolls1) =>
      if hit.outcome = .EVADE then
        .ok ({ hit := false, outcome := .EVADE, damage := 0 }, bs, rolls1)
      else
        match crit_check indices.crit.weak indices.crit.strong indices.crit.critical rolls1 with
        | .error e => .error e
        | .ok (crit, rolls2) =>
          let dmg := DAMAGE_TABLE crit.outcome
          match bs.getC defender with
          | none => .error "KeyError: combatants"
          | some st =>
            .ok ({ hit := true, outcome := critToOutcome crit.outcome, damage := dmg },
                 bs.setC defender (st.setHp (st.hp - dmg)), rolls2)

/-- `execute_reaction_attacks`: each candidate performs a basic attack on the
mover with an additive hit penalty (`IndexModifiers(hit=-penalty)`). -/
def execute_reaction_attacks (bs : BattleState) (mover : CombatantID)
    (candidates : List CombatantID) (reaction_hit_penalty : Int) (rolls : List Int) :
    Except String (List (CombatantID × AttackResult) × BattleState × List Int) :=
  match candidates with
  | [] => .ok ([], bs, rolls)
  | attacker :: rest =>
    match basic_attack bs attacker mover { hit := -reaction_hit_penalty } .STR rolls with
    | .error e => .error e
    | .ok (r, bs1, rolls1) =>
      match execute_reaction_attacks bs1 mover rest reaction_hit_penalty rolls1 with
      | .error e => .error e
      | .ok (results, bs2, rolls2) => .ok ((attacker, r) :: results, bs2, rolls2)

/-! ## Formation (`formation/movement.py`, `formation/reactions.py`) -/

/-- `_next_group_id`: max existing group id + 1, or 0 when no groups exist. -/
def next_group_id (bs : BattleState) : GroupID :=
  match bs.groups with
  | [] => 0
  | g :: gs => gs.foldl (fun m p => max m p.1) g.1 + 1

/-- `_remove_member`: remove `cid` from group `gid`, deleting the group entry
the moment its member list becomes empty; raises when the group does not
exist or `cid` is not a member. -/
def remove_member (bs : BattleState) (gid : GroupID) (cid : CombatantID) :
    Except String BattleState :=
  match aGet gid bs.groups with
  | none => .error "Group does not exist."
  | some members =>
    if cid ∈ members then
      let ms := members.erase cid
      .ok { bs with groups := if ms = [] then aDel gid bs.groups else aSet gid ms bs.groups }
    else .error "not in group"

/-- `_add_member`: append `cid` to group `gid`, creating the group (at the end
of the map) when absent; duplicate membership raises. -/
def add_member (bs : BattleState) (gid : GroupID) (cid : CombatantID) :
    Except String BattleState :=
  match aGet gid bs.groups with
  | none => .ok { bs with groups := bs.groups ++ [(gid, [cid])] }
  | some members =>
    if cid ∈ members then .error "already in group"
    else .ok { bs with groups := aSet gid (members ++ [cid]) bs.groups }

/-- `engage(bs, actor, target)`: join the target's group; no-op when already
in the same group; `actor == target` and unknown combatants raise. -/
def engage (bs : BattleState) (actor target : CombatantID) : Except String BattleState :=
  if actor = target then .error "ENGAGE: actor and target must be different."
  else
    match bs.getC actor, bs.getC target with
    | some ast, some tst =>
      let actor_gid := ast.group_id
      let target_gid := tst.group_id
      if actor_gid = target_gid then .ok bs
      else
        match remove_member bs actor_gid actor with
        | .error e => .error e
        | .ok bs1 =>
          match add_member bs1 target_gid actor with
          | .error e => .error e
          | .ok bs2 =>
            match bs2.getC actor with
            | none => .error "KeyError: combatants"
            | some ast2 => .ok (bs2.setC actor { ast2 with group_id := target_gid })
    | _, _ => .error "ENGAGE: actor/target must exist in battle."

/-- `disengage(bs, actor)`: move the actor alone into a freshly allocated
group and return the new group id. -/
def disengage (bs : BattleState) (actor : CombatantID) :
    Except String (GroupID × BattleState) :=
  match bs.getC actor with
  | none => .error "DISENGAGE: actor must exist in battle."
  | some ast =>
    let old_gid := ast.group_id
    let new_gid := next_group_id bs
    match remove_member bs old_gid actor with
    | .error e => .error e
    | .ok bs1 =>
      match add_member bs1 new_gid actor with
      | .error e => .error e
      | .ok bs2 =>
        match bs2.getC actor with
        | none => .error "KeyError: combatants"
        | some ast2 => .ok (new_gid, bs2.setC actor { ast2 with group_id := new_gid })

/-- Candidate filter of `reaction_attack_candidates`: walk the previous
group's member list, skipping the mover, downed members, same-team members,
and members without a MELEE basic attack. -/
def candFilter (bs : BattleState) (mover : CombatantID) (mteam : Team) :
    List CombatantID → Except String (List CombatantID)
  | [] => .ok []
  | cid :: rest =>
    if cid = mover then candFilter bs mover mteam rest
    else
      match bs.getC cid, aGet cid bs.defs with
      | some st, some d =>
        match candFilter bs mover mteam rest with
        | .error e => .error e
        | .ok tail =>
          .ok (if st.is_down then tail
               else if st.team = mteam then tail
               else if d.basic_attack_range ≠ .MELEE then tail
               else cid :: tail)
      | _, _ => .error "KeyError"

/-- `reaction_attack_candidates(bs, mover, prev_group_id, reaction_immune)`. -/
def reaction_attack_candidates (bs : BattleState) (mover : CombatantID)
    (prev_group_id : GroupID) (reaction_immune : Bool) :
    Except String (List CombatantID) :=
  if reaction_immune then .ok []
  else
    match bs.getC mover, aGet mover bs.defs with
    | some mst, some _ =>
      candFilter bs mover mst.team ((aGet prev_group_id bs.groups).getD [])
    | _, _ => .error "mover must exist in battle"

/-! ## Commands (`core/commands.py`) and the engine (`engine/engine.py`)

The `Step` dataclass in `core/commands.py` predates the engine: the engine
reads `s.range` and `s.area`, which that dataclass does not declare.  The
two fields are included here with the value sets the engine consumes and the
spec enumerates (`MELEE | RANGED | ANY`, `SINGLE | GROUP | ALL`); everything
else is the dataclass as written. -/

/-- Step kinds (`StepKind` literal union). -/
inductive StepKind where
  | MOVE_ENGAGE
  | MOVE_DISENGAGE
  | ATTACK
  | APPLY_EFFECT
  | REMOVE_EFFECT
  | APPLY_MODIFIER
  | APPLY_HP_DELTA
deriving DecidableEq, Repr

/-- Printable form of a step kind. -/
def StepKind.str : StepKind → String
  | .MOVE_ENGAGE => "MOVE_ENGAGE"
  | .MOVE_DISENGAGE => "MOVE_DISENGAGE"
  | .ATTACK => "ATTACK"
  | .APPLY_EFFECT => "APPLY_EFFECT"
  | .REMOVE_EFFECT => "REMOVE_EFFECT"
  | .APPLY_MODIFIER => "APPLY_MODIFIER"
  | .APPLY_HP_DELTA => "APPLY_HP_DELTA"

/-- Step ranges consumed by `_check_range`. -/
inductive RangeKind where
  | MELEE
  | RANGED
  | ANY
deriving DecidableEq, Repr

/-- Printable form of a range. -/
def RangeKind.str : RangeKind → String
  | .MELEE => "MELEE"
  | .RANGED => "RANGED"
  | .ANY => "ANY"

/-- Step areas consumed by `_resolve_targets`. -/
inductive AreaKind where
  | SINGLE
  | GROUP
  | ALL
deriving DecidableEq, Repr

/-- Printable form of an area. -/
def AreaKind.str : AreaKind → String
  | .SINGLE => "SINGLE"
  | .GROUP => "GROUP"
  | .ALL => "ALL"

/-- Action-slot types (`ActionType = Literal["MAIN", "SUB"]`). -/
inductive ActionType where
  | MAIN
  | SUB
deriving DecidableEq, Repr

/-- One micro-action inside a skill (`core/commands.py::Step` plus the
`range`/`area` fields the engine reads, see the section comment). -/
structure Step where
  kind : StepKind
  target : Option CombatantID := none
  reaction_immune : Bool := false
  reaction_hit_penalty : Int := 5
  effect_id : Option String := none
  effect_duration : Option Int := none
  status_inflict : Option Int := none
  modifier_key : Option String := none
  modifier_delta : Option Int := none
  modifier_duration : Option Int := none
  hp_delta : Option Int := none
  require_prev_gte : Int := 0
  range : RangeKind
  area : AreaKind
deriving DecidableEq, Repr

/-- A skill (`core/commands.py::Skill`). -/
structure Skill where
  skill_id : String
  name : String
  actor : CombatantID
  action_type : ActionType := .MAIN
  cooldown_turns : Int := 0
  steps : List Step := []
  crit_stat : CritStat := .STR
deriving DecidableEq, Repr

/-- Printable form of an optional combatant id (Python prints `None`). -/
def optStr : Option CombatantID → String
  | none => "None"
  | some c => c

/-- `DISPEL_INFLICT = 20`. -/
def DISPEL_INFLICT : Int := 20

/-- `_use_main`: assert it is the actor's turn and the MAIN slot is
available, then consume it. -/
def use_main (bs : BattleState) (actor : CombatantID) : Except String BattleState :=
  match bs.current_actor_id with
  | .error e => .error e
  | .ok cur =>
    if actor ≠ cur then .error "Not your turn."
    else
      match bs.getC actor with
      | none => .error "KeyError: combatants"
      | some st =>
        if st.can_main = false then .error "Main action already used this turn."
        else .ok (bs.setC actor { st with can_main := false })

/-- `_use_sub`: the SUB-slot analogue of `use_main`. -/
def use_sub (bs : BattleState) (actor : CombatantID) : Except String BattleState :=
  match bs.current_actor_id with
  | .error e => .error e
  | .ok cur =>
    if actor ≠ cur then .error "Not your turn."
    else
      match bs.getC actor with
      | none => .error "KeyError: combatants"
      | some st =>
        if st.can_sub = false then .error "Sub action already used this turn."
        else .ok (bs.setC actor { st with can_sub := false })

/-- `_reset_turn_slots`: both slots of the given actor become available. -/
def reset_turn_slots (bs : BattleState) (actor : CombatantID) : Except String BattleState :=
  match bs.getC actor with
  | none => .error "KeyError: combatants"
  | some st => .ok (bs.setC actor { st with can_main := true, can_sub := true })

/-- One tick of decay on a ticks-remaining map: decrement every entry by 1
and delete entries reaching `<= 0` (order preserved). -/
def tick_decay (m : List (String × Int)) : List (String × Int) :=
  (m.map fun p => (p.1, p.2 - 1)).filter fun p => 0 < p.2

/-- One tick of decay on a modifier list. -/
def decay_modifiers (l : List ModifierInstance) : List ModifierInstance :=
  (l.map fun m => { m with ticks_left := m.ticks_left - 1 }).filter fun m => 0 < m.ticks_left

/-- Per-combatant body of `_tick_decrement_all`. -/
def tick_decrement_combatant (st : CombatantState) : CombatantState :=
  { st with cooldowns := tick_decay st.cooldowns,
            effects := tick_decay st.effects,
            modifiers := decay_modifiers st.modifiers }

/-- `_tick_decrement_all`: decay every combatant's cooldowns, effects and
modifiers by one tick. -/
def tick_decrement_all (bs : BattleState) : BattleState :=
  { bs with combatants := bs.combatants.map fun p => (p.1, tick_decrement_combatant p.2) }

/-- `end_turn`: advance the global tick, decay all durations, rotate the turn
index cyclically, reset the new current actor's slots. -/
def end_turn (bs : BattleState) : Except String BattleState :=
  let bs1 := tick_decrement_all { bs with tick := bs.tick + 1 }
  if bs1.turn_order.length = 0 then .error "ZeroDivisionError: turn_order is empty"
  else
    let bs2 := { bs1 with turn_index := (bs1.turn_index + 1) % bs1.turn_order.length }
    match bs2.current_actor_id with
    | .error e => .error e
    | .ok cur => reset_turn_slots bs2 cur

/-- `_resolve_anchor`: the step's explicit target, which may be absent only
when the area is ALL. -/
def resolve_anchor (s : Step) : Except String (Option CombatantID) :=
  if s.area = .ALL then .ok s.target
  else
    match s.target with
    | none => .error "Step.target is required unless area == 'ALL'"
    | some t => .ok (some t)

/-- `_check_range`: ANY always passes; a missing anchor fails; MELEE requires
a shared group, RANGED requires different groups. -/
def check_range (bs : BattleState) (actor : CombatantID) (anchor : Option CombatantID)
    (s : Step) : Except String Bool :=
  if s.range = .ANY then .ok true
  else
    match anchor with
    | none => .ok false
    | some t =>
      match bs.getC actor, bs.getC t with
      | some a, some tt =>
        match s.range with
        | .MELEE => .ok (decide (a.group_id = tt.group_id))
        | .RANGED => .ok (decide (a.group_id ≠ tt.group_id))
        | .ANY => .ok true
      | _, _ => .error "KeyError: combatants"

/-- Team filter of `_resolve_targets` for GROUP areas. -/
def filter_team (bs : BattleState) (team : Team) :
    List CombatantID → Except String (List CombatantID)
  | [] => .ok []
  | cid :: rest =>
    match bs.getC cid with
    | none => .error "KeyError: combatants"
    | some st =>
      match filter_team bs team rest with
      | .error e => .error e
      | .ok tail => .ok (if st.team = team then cid :: tail else tail)

/-- `_resolve_targets`: SINGLE = anchor only, GROUP = same-team members of the
anchor's group, ALL = every combatant in the battle. -/
def resolve_targets (bs : BattleState) (anchor : Option CombatantID) (s : Step) :
    Except String (List CombatantID) :=
  if s.area = .ALL then .ok (bs.combatants.map (·.1))
  else
    match anchor with
    | none => .error "AssertionError: anchor is None"
    | some a =>
      if s.area = .SINGLE then .ok [a]
      else
        match bs.getC a with
        | none => .error "KeyError: combatants"
        | some ast => filter_team bs ast.team ((aGet ast.group_id bs.groups).getD [])

/-- `_run_reactions`: execute the candidates' reaction attacks and render
their events. -/
def run_reactions (bs : BattleState) (mover : CombatantID) (cands : List CombatantID)
    (reaction_hit_penalty : Int) (rolls : List Int) :
    Except String (List String × BattleState × List Int) :=
  if cands.isEmpty then .ok (["REACTION: none"], bs, rolls)
  else
    match execute_reaction_attacks bs mover cands reaction_hit_penalty rolls with
    | .error e => .error e
    | .ok (results, bs1, rolls1) =>
      .ok ((s!"REACTION: candidates={cands}") ::
             results.map (fun p =>
               s!"REACTION_ATTACK: {p.1}->{mover} outcome={p.2.outcome.str} dmg={p.2.damage}"),
           bs1, rolls1)

/-- The outcome-rank table of the ATTACK step
(`{"EVADE": 0, "WEAK": 1, "STRONG": 2, "CRITICAL": 3}`). -/
def outcome_rank : AttackOutcome → Int
  | .EVADE => 0
  | .WEAK => 1
  | .STRONG => 2
  | .CRITICAL => 3

/-- ATTACK-step loop: one basic attack per resolved target, the result being
the maximum outcome rank (the loop starts from `best = 0`). -/
def attack_targets (actor : CombatantID) (crit_stat : CritStat) :
    BattleState → List CombatantID → List Int →
    Except String (Int × List String × BattleState × List Int)
  | bs, [], rolls => .ok (0, [], bs, rolls)
  | bs, tgt :: rest, rolls =>
    match basic_attack bs actor tgt {} crit_stat rolls with
    | .error e => .error e
    | .ok (r, bs1, rolls1) =>
      match attack_targets actor crit_stat bs1 rest rolls1 with
      | .error e => .error e
      | .ok (best, evs, bs2, rolls2) =>
        .ok (max (outcome_rank r.outcome) best,
             (s!"STEP: ATTACK {actor}->{tgt} outcome={r.outcome.str} dmg={r.damage}") :: evs,
             bs2, rolls2)

/-- APPLY_EFFECT-step loop: per target, a non-resistible status is applied
unconditionally without a roll; otherwise a status draw decides, and a
success adds the converted ticks onto any existing remaining ticks. -/
def apply_effect_targets (actor : CombatantID) (eff : String) (inflict dur_turns dur_ticks : Int) :
    BattleState → List CombatantID → List Int →
    Except String (Bool × List String × BattleState × List Int)
  | bs, [], rolls => .ok (false, [], bs, rolls)
  | bs, tgt :: rest, rolls =>
    match aGet tgt bs.defs with
    | none => .error "KeyError: defs"
    | some d =>
      match compute_status_resist_index d.stats eff with
      | .error e => .error e
      | .ok resist =>
        if resist.resistible = false then
          match bs.getC tgt with
          | none => .error "KeyError: combatants"
          | some st =>
            let prev := (aGet eff st.effects).getD 0
            let bs1 := bs.setC tgt { st with effects := aSet eff (prev + dur_ticks) st.effects }
            match apply_effect_targets actor eff inflict dur_turns dur_ticks bs1 rest rolls with
            | .error e => .error e
            | .ok (_, evs2, bs2, rolls2) =>
              .ok (true,
                   (s!"STATUS_CHECK: {actor}->{tgt} effect={eff} inflict={inflict} resist=NA resistible=False roll=NA success=True") ::
                   (s!"EFFECT_APPLIED: {tgt} +{eff}(turns={dur_turns}, ticks=+{dur_ticks}, total_ticks={prev + dur_ticks})") :: evs2,
                   bs2, rolls2)
        else
          match roll_status_success inflict resist.value rolls with
          | .error e => .error e
          | .ok (sr, rolls1) =>
            let ev0 := s!"STATUS_CHECK: {actor}->{tgt} effect={eff} inflict={inflict} resist={resist.value} resistible=True roll={sr.roll} success={sr.success}"
            if sr.success then
              match bs.getC tgt with
              | none => .error "KeyError: combatants"
              | some st =>
                let prev := (aGet eff st.effects).getD 0
                let bs1 := bs.setC tgt { st with effects := aSet eff (prev + dur_ticks) st.effects }
                match apply_effect_targets actor eff inflict dur_turns dur_ticks bs1 rest rolls1 with
                | .error e => .error e
                | .ok (_, evs2, bs2, rolls2) =>
                  .ok (true,
                       ev0 :: (s!"EFFECT_APPLIED: {tgt} +{eff}(turns={dur_turns}, ticks=+{dur_ticks}, total_ticks={prev + dur_ticks})") :: evs2,
                       bs2, rolls2)
            else
              match apply_effect_targets actor eff inflict dur_turns dur_ticks bs rest rolls1 with
              | .error e => .error e
              | .ok (sa, evs2, bs2, rolls2) =>
                .ok (sa, ev0 :: (s!"EFFECT_RESISTED: {tgt} resisted {eff}") :: evs2, bs2, rolls2)

/-- REMOVE_EFFECT-step loop: a target without the effect is a no-op; a
non-resistible status never dispels (no roll); otherwise the status draw with
the fixed `DISPEL_INFLICT` decides, a SUCCESS meaning the effect is kept and
a FAIL meaning it is removed. -/
def remove_effect_targets (actor : CombatantID) (eff : String) :
    BattleState → List CombatantID → List Int →
    Except String (Bool × List String × BattleState × List Int)
  | bs, [], rolls => .ok (false, [], bs, rolls)
  | bs, tgt :: rest, rolls =>
    match bs.getC tgt with
    | none => .error "KeyError: combatants"
    | some st =>
      if (aGet eff st.effects).isNone then
        match remove_effect_targets actor eff bs rest rolls with
        | .error e => .error e
        | .ok (sa, evs2, bs2, rolls2) =>
          .ok (sa, (s!"EFFECT_REMOVE_NOOP: {tgt} has_no {eff}") :: evs2, bs2, rolls2)
      else
        match aGet tgt bs.defs with
        | none => .error "KeyError: defs"
        | some d =>
          match compute_status_resist_index d.stats eff with
          | .error e => .error e
          | .ok resist =>
            if resist.resistible = false then
              match remove_effect_targets actor eff bs rest rolls with
              | .error e => .error e
              | .ok (sa, evs2, bs2, rolls2) =>
                .ok (sa,
                     (s!"DISPEL_CHECK: {actor}->{tgt} effect={eff} inflict={DISPEL_INFLICT} resist=NA resistible=False roll=NA success=True") ::
                     (s!"DISPEL_FAILED: {tgt} keeps {eff}") :: evs2,
                     bs2, rolls2)
            else
              match roll_status_success DISPEL_INFLICT resist.value rolls with
              | .error e => .error e
              | .ok (sr, rolls1) =>
                let ev0 := s!"DISPEL_CHECK: {actor}->{tgt} effect={eff} inflict={DISPEL_INFLICT} resist={resist.value} resistible=True roll={sr.roll} success={sr.success}"
                if sr.success then
                  match remove_effect_targets actor eff bs rest rolls1 with
                  | .error e => .error e
                  | .ok (sa, evs2, bs2, rolls2) =>
                    .ok (sa, ev0 :: (s!"DISPEL_FAILED: {tgt} keeps {eff}") :: evs2, bs2, rolls2)
                else
                  let bs1 := bs.setC tgt { st with effects := aDel eff st.effects }
                  match remove_effect_targets actor eff bs1 rest rolls1 with
                  | .error e => .error e
                  | .ok (_, evs2, bs2, rolls2) =>
                    .ok (true, ev0 :: (s!"DISPEL_SUCCESS: {tgt} -{eff}") :: evs2, bs2, rolls2)

/-- APPLY_MODIFIER-step loop: append a fresh `ModifierInstance` (fresh id
from the uuid supply) to every target; never merges with existing instances. -/
def apply_modifier_targets (key : String) (delta dur_turns dur_ticks : Int) :
    BattleState → List CombatantID → Nat →
    Except String (Bool × List String × BattleState × Nat)
  | bs, [], mids => .ok (false, [], bs, mids)
  | bs, tgt :: rest, mids =>
    match bs.getC tgt with
    | none => .error "KeyError: combatants"
    | some st =>
      let mi : ModifierInstance := { mid := mids, key := key, delta := delta, ticks_left := dur_ticks }
      let bs1 := bs.setC tgt { st with modifiers := st.modifiers ++ [mi] }
      match apply_modifier_targets key delta dur_turns dur_ticks bs1 rest (mids + 1) with
      | .error e => .error e
      | .ok (_, evs2, bs2, mids2) =>
        .ok (true,
             (s!"MOD_APPLIED: {tgt} mid={mids} key={key} delta={delta} turns={dur_turns} ticks={dur_ticks}") :: evs2,
             bs2, mids2)

/-- APPLY_HP_DELTA-step loop: add the signed delta to every target's HP
through the clamping setter. -/
def hp_delta_targets (delta : Int) :
    BattleState → List CombatantID → Except String (List String × BattleState)
  | bs, [] => .ok ([], bs)
  | bs, tgt :: rest =>
    match bs.getC tgt with
    | none => .error "KeyError: combatants"
    | some st =>
      let before := st.hp
      let st1 := st.setHp (before + delta)
      match hp_delta_targets delta (bs.setC tgt st1) rest with
      | .error e => .error e
      | .ok (evs2, bs2) =>
        .ok ((s!"HP_DELTA: {tgt} {before}->{st1.hp} (delta={delta})") :: evs2, bs2)

/-- Output of one `_apply_step` call: the integer result that becomes the next
"previous result", the event log, and the threaded state (battle, roll
oracle, uuid supply). -/
structure StepOut where
  result : Int
  events : List String
  bs : BattleState
  rolls : List Int
  mids : Nat
deriving DecidableEq, Repr

/-- `_apply_step`: dispatch one step.  The anchor is resolved before the
dispatch (as in the source); the per-kind field validations, range check,
target resolution and diagnostic short-circuits follow the source line by
line. -/
def apply_step (bs : BattleState) (actor : CombatantID) (s : Step)
    (reaction_hit_penalty : Int) (crit_stat : CritStat) (rolls : List Int) (mids : Nat) :
    Except String StepOut :=
  match bs.getC actor with
  | none => .error "KeyError: combatants"
  | some ast =>
    let prev_gid := ast.group_id
    match resolve_anchor s with
    | .error e => .error e
    | .ok anchor =>
      match s.kind with
      | .MOVE_ENGAGE =>
        match s.target with
        | none => .error "MOVE_ENGAGE requires target"
        | some tgt =>
          match engage bs actor tgt with
          | .error e => .error e
          | .ok bs1 =>
            match reaction_attack_candidates bs1 actor prev_gid s.reaction_immune with
            | .error e => .error e
            | .ok cands =>
              match run_reactions bs1 actor cands reaction_hit_penalty rolls with
              | .error e => .error e
              | .ok (revs, bs2, rolls2) =>
                .ok ⟨1, (s!"STEP: MOVE_ENGAGE {actor}->{tgt}") :: revs, bs2, rolls2, mids⟩
      | .MOVE_DISENGAGE =>
        match disengage bs actor with
        | .error e => .error e
        | .ok (new_gid, bs1) =>
          match reaction_attack_candidates bs1 actor prev_gid s.reaction_immune with
          | .error e => .error e
          | .ok cands =>
            match run_reactions bs1 actor cands reaction_hit_penalty rolls with
            | .error e => .error e
            | .ok (revs, bs2, rolls2) =>
              .ok ⟨1, (s!"STEP: MOVE_DISENGAGE {actor} -> new_group={new_gid}") :: revs,
                   bs2, rolls2, mids⟩
      | .ATTACK =>
        if s.target = none ∧ s.area ≠ .ALL then
          .error "ATTACK requires target unless area == 'ALL'"
        else
          match check_range bs actor anchor s with
          | .error e => .error e
          | .ok false =>
            .ok ⟨0, [s!"OUT_OF_RANGE: ATTACK actor={actor} anchor={optStr anchor} range={s.range.str} area={s.area.str}"],
                 bs, rolls, mids⟩
          | .ok true =>
            match resolve_targets bs anchor s with
            | .error e => .error e
            | .ok targets =>
              if targets.isEmpty then
                .ok ⟨0, [s!"NO_TARGETS: ATTACK actor={actor} anchor={optStr anchor} range={s.range.str} area={s.area.str}"],
                     bs, rolls, mids⟩
              else
                match attack_targets actor crit_stat bs targets rolls with
                | .error e => .error e
                | .ok (best, evs, bs1, rolls1) => .ok ⟨best, evs, bs1, rolls1, mids⟩
      | .APPLY_EFFECT =>
        if s.target = none ∧ s.area ≠ .ALL then
          .error "APPLY_EFFECT requires target unless area == 'ALL'"
        else
          match s.effect_id, s.effect_duration with
          | none, _ => .error "APPLY_EFFECT requires effect_id/effect_duration(turns)"
          | some _, none => .error "APPLY_EFFECT requires effect_id/effect_duration(turns)"
          | some eff, some dur =>
            if eff = "" then .error "APPLY_EFFECT requires effect_id/effect_duration(turns)"
            else
              match s.status_inflict with
              | none => .error "APPLY_EFFECT requires status_inflict"
              | some inflict =>
                match check_range bs actor anchor s with
                | .error e => .error e
                | .ok false =>
                  .ok ⟨0, [s!"OUT_OF_RANGE: APPLY_EFFECT actor={actor} anchor={optStr anchor} effect={eff} range={s.range.str} area={s.area.str}"],
                       bs, rolls, mids⟩
                | .ok true =>
                  match resolve_targets bs anchor s with
                  | .error e => .error e
                  | .ok targets =>
                    if targets.isEmpty then
                      .ok ⟨0, [s!"NO_TARGETS: APPLY_EFFECT actor={actor} anchor={optStr anchor} effect={eff} range={s.range.str} area={s.area.str}"],
                           bs, rolls, mids⟩
                    else
                      match turns_to_ticks_for_battle bs dur with
                      | .error e => .error e
                      | .ok dur_ticks =>
                        match apply_effect_targets actor eff inflict dur dur_ticks bs targets rolls with
                        | .error e => .error e
                        | .ok (success_any, evs, bs1, rolls1) =>
                          .ok ⟨if success_any then 1 else 0, evs, bs1, rolls1, mids⟩
      | .REMOVE_EFFECT =>
        if s.target = none ∧ s.area ≠ .ALL then
          .error "REMOVE_EFFECT requires target unless area == 'ALL'"
        else
          match s.effect_id with
          | none => .error "REMOVE_EFFECT requires effect_id"
          | some eff =>
            if eff = "" then .error "REMOVE_EFFECT requires effect_id"
            else
              match check_range bs actor anchor s with
              | .error e => .error e
              | .ok false =>
                .ok ⟨0, [s!"OUT_OF_RANGE: REMOVE_EFFECT actor={actor} anchor={optStr anchor} effect={eff} range={s.range.str} area={s.area.str}"],
                     bs, rolls, mids⟩
              | .ok true =>
                match resolve_targets bs anchor s with
                | .error e => .error e
                | .ok targets =>
                  if targets.isEmpty then
                    .ok ⟨0, [s!"NO_TARGETS: REMOVE_EFFECT actor={actor} anchor={optStr anchor} effect={eff} range={s.range.str} area={s.area.str}"],
                         bs, rolls, mids⟩
                  else
                    match remove_effect_targets actor eff bs targets rolls with
                    | .error e => .error e
                    | .ok (success_any, evs, bs1, rolls1) =>
                      .ok ⟨if success_any then 1 else 0, evs, bs1, rolls1, mids⟩
      | .APPLY_MODIFIER =>
        if s.target = none ∧ s.area ≠ .ALL then
          .error "APPLY_MODIFIER requires target unless area == 'ALL'"
        else
          match s.modifier_key, s.modifier_delta, s.modifier_duration with
          | some key, some delta, some dur =>
            match check_range bs actor anchor s with
            | .error e => .error e
            | .ok false =>
              .ok ⟨0, [s!"OUT_OF_RANGE: APPLY_MODIFIER actor={actor} anchor={optStr anchor} key={key} range={s.range.str} area={s.area.str}"],
                   bs, rolls, mids⟩
            | .ok true =>
              match resolve_targets bs anchor s with
              | .error e => .error e
              | .ok targets =>
                if targets.isEmpty then
                  .ok ⟨0, [s!"NO_TARGETS: APPLY_MODIFIER actor={actor} anchor={optStr anchor} key={key} range={s.range.str} area={s.area.str}"],
                       bs, rolls, mids⟩
                else
                  match turns_to_ticks_for_battle bs dur with
                  | .error e => .error e
                  | .ok dur_ticks =>
                    match apply_modifier_targets key delta dur dur_ticks bs targets mids with
                    | .error e => .error e
                    | .ok (applied_any, evs, bs1, mids1) =>
                      .ok ⟨if applied_any then 1 else 0, evs, bs1, rolls, mids1⟩
          | _, _, _ => .error "APPLY_MODIFIER requires modifier_key/modifier_delta/modifier_duration"
      | .APPLY_HP_DELTA =>
        if s.target = none ∧ s.area ≠ .ALL then
          .error "APPLY_HP_DELTA requires target unless area == 'ALL'"
        else
          match s.hp_delta with
          | none => .error "APPLY_HP_DELTA requires hp_delta"
          | some delta =>
            match check_range bs actor anchor s with
            | .error e => .error e
            | .ok false =>
              .ok ⟨0, [s!"OUT_OF_RANGE: APPLY_HP_DELTA actor={actor} anchor={optStr anchor} delta={delta} range={s.range.str} area={s.area.str}"],
                   bs, rolls, mids⟩
            | .ok true =>
              match resolve_targets bs anchor s with
              | .error e => .error e
              | .ok targets =>
                if targets.isEmpty then
                  .ok ⟨0, [s!"NO_TARGETS: APPLY_HP_DELTA actor={actor} anchor={optStr anchor} delta={delta} range={s.range.str} area={s.area.str}"],
                       bs, rolls, mids⟩
                else
                  match hp_delta_targets delta bs targets with
                  | .error e => .error e
                  | .ok (evs, bs1) => .ok ⟨1, evs, bs1, rolls, mids⟩

/-- Output of the step loop / of `apply_skill`. -/
structure RunOut where
  events : List String
  bs : BattleState
  rolls : List Int
  mids : Nat
deriving DecidableEq, Repr

/-- The step loop of `apply_skill`: a running previous result starts at 1;
a step whose `require_prev_gte` exceeds it aborts the whole remainder with a
`STEP_SKIPPED` record and a `CHAIN_BREAK`; otherwise the step runs and its
integer result becomes the previous result for the next step. -/
def run_steps (actor : CombatantID) (crit_stat : CritStat) (reaction_hit_penalty : Int) :
    BattleState → Int → List Step → List Int → Nat → Except String RunOut
  | bs, _, [], rolls, mids => .ok ⟨[], bs, rolls, mids⟩
  | bs, prev, s :: rest, rolls, mids =>
    if prev < s.require_prev_gte then
      .ok ⟨[s!"STEP_SKIPPED: kind={s.kind.str} require_prev_gte={s.require_prev_gte} prev={prev}",
            "CHAIN_BREAK"], bs, rolls, mids⟩
    else
      match apply_step bs actor s reaction_hit_penalty crit_stat rolls mids with
      | .error e => .error e
      | .ok so =>
        match run_steps actor crit_stat reaction_hit_penalty so.bs so.result rest so.rolls so.mids with
        | .error e => .error e
        | .ok ro => .ok ⟨so.events ++ ro.events, ro.bs, ro.rolls, ro.mids⟩

/-- `apply_skill`: verify the actor, consume the declared slot, reject an
active skill cooldown, run the steps through the chain gate, then register
the skill cooldown (unconditionally, even after a chain break). -/
def apply_skill (bs : BattleState) (skill : Skill) (reaction_hit_penalty : Int)
    (rolls : List Int) (mids : Nat) : Except String RunOut :=
  match bs.current_actor_id with
  | .error e => .error e
  | .ok actor =>
    if skill.actor ≠ actor then .error "Not your turn (skill.actor != current actor)."
    else
      match (match skill.action_type with
             | .MAIN => use_main bs actor
             | .SUB => use_sub bs actor) with
      | .error e => .error e
      | .ok bs1 =>
        let slotEv := match skill.action_type with
          | .MAIN => s!"SLOT: MAIN used by {actor}"
          | .SUB => s!"SLOT: SUB used by {actor}"
        match bs1.getC actor with
        | none => .error "KeyError: combatants"
        | some st =>
          if skill.cooldown_turns > 0 ∧ (aGet skill.skill_id st.cooldowns).getD 0 > 0 then
            .error s!"Skill on cooldown: {skill.skill_id}"
          else
            match run_steps actor skill.crit_stat reaction_hit_penalty bs1 1 skill.steps rolls mids with
            | .error e => .error e
            | .ok ro =>
              if skill.cooldown_turns > 0 then
                match turns_to_ticks_for_battle ro.bs skill.cooldown_turns with
                | .error e => .error e
                | .ok cd_ticks =>
                  match ro.bs.getC actor with
                  | none => .error "KeyError: combatants"
                  | some st2 =>
                    .ok ⟨slotEv :: ro.events ++
                           [s!"COOLDOWN_SET: {actor} skill={skill.skill_id} turns={skill.cooldown_turns} ticks={cd_ticks}"],
                         ro.bs.setC actor { st2 with cooldowns := aSet skill.skill_id cd_ticks st2.cooldowns },
                         ro.rolls, ro.mids⟩
              else
                .ok ⟨slotEv :: ro.events, ro.bs, ro.rolls, ro.mids⟩

/-! ## Derived helpers used by the verification statements -/

/-- Unwrap an `Except` with a fallback. -/
def getOk {α : Type} (d : α) : Except String α → α
  | .ok a => a
  | .error _ => d

/-- Decidable equality on `Except`, so that concrete engine runs can be
checked by `decide`. -/
instance exceptDecEq {ε α : Type} [DecidableEq ε] [DecidableEq α] :
    DecidableEq (Except ε α) := fun a b =>
  match a, b with
  | .error e1, .error e2 =>
    if h : e1 = e2 then isTrue (by rw [h])
    else isFalse (by intro hh; cases hh; exact h rfl)
  | .ok x, .ok y =>
    if h : x = y then isTrue (by rw [h])
    else isFalse (by intro hh; cases hh; exact h rfl)
  | .error _, .ok _ => isFalse (by intro hh; cases hh)
  | .ok _, .error _ => isFalse (by intro hh; cases hh)

/-- Iterate `end_turn` `k` times. -/
def end_turn_iter : Nat → BattleState → Except String BattleState
  | 0, bs => .ok bs
  | k + 1, bs =>
    match end_turn bs with
    | .error e => .error e
    | .ok bs1 => end_turn_iter k bs1

/-- Remaining ticks of effect `e` on combatant `c`, as observed in a state. -/
def effTicks (bs : BattleState) (c : CombatantID) (e : String) : Option Int :=
  (bs.getC c).bind fun st => aGet e st.effects

/-- Equality of two combatant states except for their modifier lists. -/
def modEquivC (s1 s2 : CombatantState) : Bool :=
  s1.cid == s2.cid && s1.team == s2.team && s1.max_hp == s2.max_hp &&
  s1.hp == s2.hp && s1.group_id == s2.group_id && s1.can_main == s2.can_main &&
  s1.can_sub == s2.can_sub && s1.cooldowns == s2.cooldowns &&
  s1.effects == s2.effects && s1.flags == s2.flags

/-- Pointwise `modEquivC` over two combatant maps (same keys, same order). -/
def modEquivL : List (CombatantID × CombatantState) → List (CombatantID × CombatantState) → Bool
  | [], [] => true
  | p :: ps, q :: qs => p.1 == q.1 && modEquivC p.2 q.2 && modEquivL ps qs
  | _, _ => false

/-- Two battle states that are identical except for the contents of the
combatants' modifier lists. -/
def modEquiv (bs1 bs2 : BattleState) : Bool :=
  bs1.defs == bs2.defs && bs1.turn_order == bs2.turn_order &&
  bs1.turn_index == bs2.turn_index && bs1.tick == bs2.tick &&
  bs1.groups == bs2.groups && bs1.ended == bs2.ended &&
  modEquivL bs1.combatants bs2.combatants

/-- The per-kind field validations of `_apply_step` hold and the kind is not
a movement kind (so the range check applies to the step). -/
def nonmove_fields_ok (s : Step) : Bool :=
  match s.kind with
  | .MOVE_ENGAGE => false
  | .MOVE_DISENGAGE => false
  | .ATTACK => true
  | .APPLY_EFFECT =>
    (match s.effect_id with | some e => e ≠ "" | none => false) &&
    s.effect_duration.isSome && s.status_inflict.isSome
  | .REMOVE_EFFECT =>
    (match s.effect_id with | some e => e ≠ "" | none => false)
  | .APPLY_MODIFIER =>
    s.modifier_key.isSome && s.modifier_delta.isSome && s.modifier_duration.isSome
  | .APPLY_HP_DELTA => s.hp_delta.isSome

/-! ## Concrete fixtures -/

/-- Stat block of the standard ally fixture. -/
def statsA : Stats := ⟨10, 20, 10, 10, 10, 10⟩

/-- Stat block of the standard enemy fixture. -/
def statsE : Stats := ⟨5, 5, 5, 5, 5, 5⟩

/-- Definition of the standard ally fixture. -/
def defA : CharacterDef := { cid := "A1", name := "A1", level := 10, stats := statsA, max_hp := 50 }

/-- Definition of the standard enemy fixture. -/
def defE : CharacterDef := { cid := "E1", name := "E1", level := 10, stats := statsE, max_hp := 50 }

/-- State of the standard ally fixture (group 0). -/
def stA : CombatantState := { cid := "A1", team := .ALLY, max_hp := 50, hp := 50, group_id := 0 }

/-- State of the standard enemy fixture (group 1). -/
def stE : CombatantState := { cid := "E1", team := .ENEMY, max_hp := 50, hp := 50, group_id := 1 }

/-- Standard 1v1 battle fixture: A1 (fast) versus E1, separate groups. -/
def bsAE : BattleState :=
  { defs := [("A1", defA), ("E1", defE)],
    combatants := [("A1", stA), ("E1", stE)],
    turn_order := ["A1", "E1"],
    groups := [(0, ["A1"]), (1, ["E1"])] }

/-- Downed ally for the down-state fixture: current HP is 0. -/
def c1A : CombatantState := { cid := "A1", team := .ALLY, max_hp := 30, hp := 0, group_id := 0 }

/-- Healthy enemy for the down-state fixture. -/
def c1E : CombatantState := { cid := "E1", team := .ENEMY, max_hp := 30, hp := 10, group_id := 1 }

/-- Battle fixture whose current actor (A1) has 0 HP. -/
def bs1ex : BattleState :=
  { defs := [],
    combatants := [("A1", c1A), ("E1", c1E)],
    turn_order := ["A1", "E1"],
    groups := [(0, ["A1"]), (1, ["E1"])] }

/-- A one-step (self-contained, roll-free) skill submitted by the downed A1. -/
def step1ex : Step :=
  { kind := .APPLY_HP_DELTA, target := some "E1", hp_delta := some (-1),
    range := .ANY, area := .SINGLE }

/-- Skill by the downed actor with one HP-delta step. -/
def skill1ex : Skill := { skill_id := "s1", name := "poke", actor := "A1", steps := [step1ex] }

/-- Expected state after the downed actor's skill: its MAIN slot is consumed
and the step has executed. -/
def bs1after : BattleState :=
  { bs1ex with combatants := [("A1", { c1A with can_main := false }), ("E1", { c1E with hp := 9 })] }

/-- Empty skill by the downed actor, for the amended-claim witness. -/
def skill1w : Skill := { skill_id := "w1", name := "wait", actor := "A1" }

/-- ALL-area melee attack step with no anchor (target absent). -/
def step2cex : Step := { kind := .ATTACK, target := none, range := .MELEE, area := .ALL }

/-- Cross-group melee single-target attack step (out of range on `bsAE`). -/
def step2w : Step := { kind := .ATTACK, target := some "E1", range := .MELEE, area := .SINGLE }

/-- Cross-group ranged single-target attack step (in range on `bsAE`). -/
def step2r : Step := { kind := .ATTACK, target := some "E1", range := .RANGED, area := .SINGLE }

/-- Combatant whose group id (9) has no entry in the group map. -/
def stO : CombatantState := { cid := "O1", team := .ENEMY, max_hp := 5, hp := 5, group_id := 9 }

/-- Battle fixture with a combatant in a group missing from the group map,
so a GROUP-area step anchored at it resolves to no targets. -/
def bs2ex : BattleState :=
  { defs := [("A1", defA), ("O1", defE)],
    combatants := [("A1", stA), ("O1", stO)],
    turn_order := ["A1", "O1"],
    groups := [(0, ["A1"])] }

/-- GROUP-area attack step anchored at the orphaned combatant. -/
def step2nt : Step := { kind := .ATTACK, target := some "O1", range := .ANY, area := .GROUP }

/-- ATTACK step of the chain-break scenario. -/
def stepAtk : Step := { kind := .ATTACK, target := some "E1", range := .ANY, area := .SINGLE }

/-- APPLY_EFFECT step gated on the attack result (`require_prev_gte = 1`). -/
def stepEff : Step :=
  { kind := .APPLY_EFFECT, target := some "E1", effect_id := some "BLEEDING",
    effect_duration := some 2, status_inflict := some 30, require_prev_gte := 1,
    range := .ANY, area := .SINGLE }

/-- The `[ATTACK, APPLY_EFFECT(require_prev_gte=1)]` scenario skill. -/
def skill3 : Skill :=
  { skill_id := "s3", name := "atk-bleed", actor := "A1", steps := [stepAtk, stepEff],
    crit_stat := .AGI }

/-- A first step with `require_prev_gte = 2`, above the initial previous
result of 1. -/
def step3c : Step :=
  { kind := .APPLY_HP_DELTA, target := some "E1", hp_delta := some (-1),
    require_prev_gte := 2, range := .ANY, area := .SINGLE }

/-- Skill whose first step is gated out immediately. -/
def skill3c : Skill := { skill_id := "s3c", name := "gated", actor := "A1", steps := [step3c] }

/-- Ally carrying a 5-tick effect, for the decay fixture. -/
def stA5 : CombatantState := { stA with effects := [("BLEEDING", 5)] }

/-- 2-participant battle where A1 carries the effect `BLEEDING` with
`turns_to_ticks 2 2 = 5` remaining ticks. -/
def bs5ex : BattleState :=
  { defs := [("A1", defA), ("E1", defE)],
    combatants := [("A1", stA5), ("E1", stE)],
    turn_order := ["A1", "E1"],
    groups := [(0, ["A1"]), (1, ["E1"])] }

/-- The state after five `end_turn` calls on the decay fixture. -/
def bs5after : BattleState := getOk bs5ex (end_turn_iter 5 bs5ex)

/-- Enemy already afflicted by the non-resistible status (4 ticks left). -/
def st6E : CombatantState := { stE with effects := [("INSTANT_DEATH", 4)] }

/-- Battle fixture for the cumulative-effect scenario. -/
def bs6ex : BattleState :=
  { defs := [("A1", defA), ("E1", defE)],
    combatants := [("A1", stA), ("E1", st6E)],
    turn_order := ["A1", "E1"],
    groups := [(0, ["A1"]), (1, ["E1"])] }

/-- Re-application of the already-active non-resistible effect. -/
def step6 : Step :=
  { kind := .APPLY_EFFECT, target := some "E1", effect_id := some "INSTANT_DEATH",
    effect_duration := some 2, status_inflict := some 30, range := .ANY, area := .SINGLE }

/-- Dispel attempt on an effect the enemy holds. -/
def step7 : Step :=
  { kind := .REMOVE_EFFECT, target := some "E1", effect_id := some "BLEEDING",
    range := .ANY, area := .SINGLE }

/-- Enemy holding a resistible effect, for the dispel fixture. -/
def st7E : CombatantState := { stE with effects := [("BLEEDING", 7)] }

/-- Battle fixture for the dispel scenario. -/
def bs7ex : BattleState :=
  { defs := [("A1", defA), ("E1", defE)],
    combatants := [("A1", stA), ("E1", st7E)],
    turn_order := ["A1", "E1"],
    groups := [(0, ["A1"]), (1, ["E1"])] }

/-- Three-combatant formation fixture: A1 and B1 share group 0, E1 in group 1. -/
def bs9ex : BattleState :=
  { defs := [],
    combatants :=
      [("A1", { cid := "A1", team := .ALLY, max_hp := 10, hp := 10, group_id := 0 }),
       ("B1", { cid := "B1", team := .ALLY, max_hp := 10, hp := 10, group_id := 0 }),
       ("E1", { cid := "E1", team := .ENEMY, max_hp := 10, hp := 10, group_id := 1 })],
    turn_order := ["A1", "B1", "E1"],
    groups := [(0, ["A1", "B1"]), (1, ["E1"])] }

/-- Formation fixture where E1 is the sole member of its group. -/
def bs9solo : BattleState := bs9ex

/-- Ally fixture carrying one stored modifier instance. -/
def stAmod : CombatantState := { stA with modifiers := [⟨99, "HIT", 50, 9⟩] }

/-- The standard battle with a stored modifier added to A1 — identical to
`bsAE` except for A1's modifier list. -/
def bsMod : BattleState :=
  { defs := [("A1", defA), ("E1", defE)],
    combatants := [("A1", stAmod), ("E1", stE)],
    turn_order := ["A1", "E1"],
    groups := [(0, ["A1"]), (1, ["E1"])] }

/-! ## Association-list lemmas -/

theorem aGet_aSet_same {κ α : Type} [DecidableEq κ] (k : κ) (v : α) (l : List (κ × α)) :
    aGet k (aSet k v l) = some v := by
  induction l with
  | nil => simp [aGet, aSet]
  | cons p ps ih =>
    by_cases h : p.1 = k
    · simp [aSet, h, aGet]
    · simp [aSet, h, aGet, ih]

theorem aGet_aSet_ne {κ α : Type} [DecidableEq κ] {k k' : κ} (v : α) (l : List (κ × α))
    (h : k ≠ k') : aGet k' (aSet k v l) = aGet k' l := by
  induction l with
  | nil => simp [aGet, aSet, h]
  | cons p ps ih =>
    by_cases hp : p.1 = k
    · have hpk : p.1 ≠ k' := by rw [hp]; exact h
      simp [aSet, hp, aGet, h, hpk]
    · simp [aSet, hp, aGet, ih]

theorem aGet_map_val {κ α β : Type} [DecidableEq κ] (f : α → β) (k : κ) (l : List (κ × α)) :
    aGet k (l.map fun p => (p.1, f p.2)) = (aGet k l).map f := by
  induction l with
  | nil => simp [aGet]
  | cons p ps ih => by_cases h : p.1 = k <;> simp [aGet, h, ih]

theorem aGet_eq_none_of_not_mem {κ α : Type} [DecidableEq κ] {k : κ} {l : List (κ × α)}
    (h : k ∉ l.map Prod.fst) : aGet k l = none := by
  induction l with
  | nil => rfl
  | cons p ps ih =>
    simp only [List.map_cons, List.mem_cons, not_or] at h
    have : p.1 ≠ k := fun e => h.1 e.symm
    simp [aGet, this, ih h.2]

theorem mem_of_aGet_some {κ α : Type} [DecidableEq κ] {k : κ} {v : α} {l : List (κ × α)}
    (h : aGet k l = some v) : (k, v) ∈ l := by
  induction l with
  | nil => simp [aGet] at h
  | cons p ps ih =>
    by_cases hp : p.1 = k
    · rw [aGet, if_pos hp] at h
      cases h
      subst hp
      simp
    · rw [aGet, if_neg hp] at h
      exact List.mem_cons_of_mem _ (ih h)

theorem aGet_aDel_ne {κ α : Type} [DecidableEq κ] {k k' : κ} (l : List (κ × α))
    (h : k ≠ k') : aGet k' (aDel k l) = aGet k' l := by
  induction l with
  | nil => rfl
  | cons p ps ih =>
    by_cases hp : p.1 = k
    · have hpk : p.1 ≠ k' := by rw [hp]; exact h
      simp [aDel, hp, aGet, h, hpk]
    · simp [aDel, hp, aGet, ih]

theorem aGet_aDel_same {κ α : Type} [DecidableEq κ] {k : κ} {l : List (κ × α)}
    (hnd : (l.map Prod.fst).Nodup) : aGet k (aDel k l) = none := by
  induction l with
  | nil => rfl
  | cons p ps ih =>
    simp only [List.map_cons, List.nodup_cons] at hnd
    by_cases hp : p.1 = k
    · subst hp
      rw [aDel, if_pos rfl]
      exact aGet_eq_none_of_not_mem hnd.1
    · simp [aDel, hp, aGet, ih hnd.2]

/-! ## Tick-decay lemmas -/

theorem keys_tick_decay_sublist (m : List (String × Int)) :
    List.Sublist ((tick_decay m).map Prod.fst) (m.map Prod.fst) := by
  have h1 : List.Sublist (tick_decay m) (m.map fun p => (p.1, p.2 - 1)) :=
    List.filter_sublist _
  have h2 := h1.map Prod.fst
  simpa [List.map_map, Function.comp] using h2

theorem nodup_keys_tick_decay {m : List (String × Int)} (hnd : (m.map Prod.fst).Nodup) :
    ((tick_decay m).map Prod.fst).Nodup :=
  (keys_tick_decay_sublist m).nodup hnd

theorem aGet_tick_decay (e : String) (m : List (String × Int))
    (hnd : (m.map Prod.fst).Nodup) :
    aGet e (tick_decay m) = (aGet e m).bind fun t => if 1 < t then some (t - 1) else none := by
  induction m with
  | nil => simp [tick_decay, aGet]
  | cons p ps ih =>
    obtain ⟨k, v⟩ := p
    simp only [List.map_cons, List.nodup_cons] at hnd
    obtain ⟨hk, hnd'⟩ := hnd
    have hstep : tick_decay ((k, v) :: ps) =
        if 0 < v - 1 then (k, v - 1) :: tick_decay ps else tick_decay ps := by
      simp only [tick_decay, List.map_cons, List.filter_cons, decide_eq_true_eq]
    rw [hstep]
    by_cases h : k = e
    · subst h
      by_cases hv : 0 < v - 1
      · have hv' : 1 < v := by omega
        simp [aGet, hv, hv']
      · have hv' : ¬ 1 < v := by omega
        have hmem : k ∉ (tick_decay ps).map Prod.fst :=
          fun hm => hk ((keys_tick_decay_sublist ps).subset hm)
        simp [aGet, hv, hv', aGet_eq_none_of_not_mem hmem]
    · by_cases hv : 0 < v - 1 <;> simp [aGet, h, hv, ih hnd']

/-! ## HP-clamp facts (claim C4) -/

/-- C4 fails as stated: construction clamps only from below, so a combatant
constructed with `_hp = 9` and `max_hp = 5` stores an HP of 9, above its
maximum. -/
theorem C4_counterexample :
    (mkCombatantState "X" Team.ALLY 5 9 0).hp = 9 ∧
    ¬ (mkCombatantState "X" Team.ALLY 5 9 0).hp ≤ (mkCombatantState "X" Team.ALLY 5 9 0).max_hp := by
  decide

/-- C4 (amended): setter writes (`hp` property, used by attack damage and
APPLY_HP_DELTA) clamp into `[0, max HP]` whenever `max HP ≥ 0`; construction
clamps only from below (`hp = max 0 _hp`), so it does not enforce the upper
bound; `is_down` is the derived predicate `hp ≤ 0`, equivalent to `hp = 0`
on the nonnegative HP values every write produces, with no stored flag. -/
theorem C4_amended :
    (∀ max_hp v : Int, 0 ≤ max_hp → 0 ≤ clamp_hp max_hp v ∧ clamp_hp max_hp v ≤ max_hp) ∧
    (∀ (st : CombatantState) (v : Int), 0 ≤ st.max_hp →
      0 ≤ (st.setHp v).hp ∧ (st.setHp v).hp ≤ st.max_hp) ∧
    (∀ (cid : CombatantID) (team : Team) (max_hp hp : Int) (gid : GroupID),
      (mkCombatantState cid team max_hp hp gid).hp = max 0 hp) ∧
    (∀ st : CombatantState, 0 ≤ st.hp → (st.is_down = true ↔ st.hp = 0)) := by
  refine ⟨?_, ?_, ?_, ?_⟩
  · intro m v hm
    unfold clamp_hp
    split
    · omega
    · split <;> omega
  · intro st v hm
    have hrw : (st.setHp v).hp = clamp_hp st.max_hp v := rfl
    rw [hrw]
    unfold clamp_hp
    split
    · omega
    · split <;> omega
  · intro cid team m hp gid
    rfl
  · intro st h
    simp only [CombatantState.is_down, decide_eq_true_eq]
    omega

/-- Witness for C4 (amended) at concrete inputs. -/
theorem C4_amended_witness :
    (0 ≤ (5 : Int) ∧ 0 ≤ clamp_hp 5 9 ∧ clamp_hp 5 9 ≤ 5) ∧
    (0 ≤ stE.max_hp ∧ 0 ≤ (stE.setHp 999).hp ∧ (stE.setHp 999).hp ≤ stE.max_hp) ∧
    (mkCombatantState "X" Team.ALLY 5 (-7) 0).hp = max 0 (-7) ∧
    (0 ≤ c1A.hp ∧ (c1A.is_down = true ↔ c1A.hp = 0)) :=
  ⟨⟨by decide, C4_amended.1 5 9 (by decide)⟩,
   ⟨by decide, C4_amended.2.1 stE 999 (by decide)⟩,
   C4_amended.2.2.1 "X" Team.ALLY 5 (-7) 0,
   ⟨by decide, C4_amended.2.2.2 c1A (by decide)⟩⟩

/-! ## Index formulas (claim C8) -/

/-- C8: the hit index is `40 + attacker level`; the evade index is the floor
division `(2·max(AGI,WIS) + min(AGI,WIS)) / 3` for nonnegative stats (Int `/`
is floor division for a positive divisor); level 10 is the "uncommon" rarity
tier; and at level 10 with AGI=20, STR=10 and crit-stat AGI the computed
(weak, strong, critical) indices are exactly (25, 35, 12) whatever the
remaining stats are. -/
theorem C8_index_formulas :
    (∀ level : Int, compute_hit_index level = 40 + level) ∧
    (∀ stats : Stats, 0 ≤ stats.agi → 0 ≤ stats.wis →
      compute_evade_index stats =
        (2 * max stats.agi stats.wis + min stats.agi stats.wis) / 3) ∧
    level_to_rarity 10 = .uncommon ∧
    (∀ c i w ch : Int,
      compute_crit_indices 10 ⟨10, 20, c, i, w, ch⟩ .AGI = ⟨25, 35, 12⟩) := by
  refine ⟨fun level => rfl, ?_, by decide, fun c i w ch => rfl⟩
  intro stats ha hw
  by_cases h : stats.agi ≥ stats.wis
  · have hmax : max stats.agi stats.wis = stats.agi := max_eq_left h
    have hmin : min stats.agi stats.wis = stats.wis := min_eq_right h
    simp only [compute_evade_index, h, if_true]
    rw [Int.tdiv_eq_ediv (by omega) (by omega), hmax, hmin]
    congr 1
    ring
  · have h' : stats.agi ≤ stats.wis := le_of_not_le h
    have hmax : max stats.agi stats.wis = stats.wis := max_eq_right h'
    have hmin : min stats.agi stats.wis = stats.agi := min_eq_left h'
    simp only [compute_evade_index, h, if_false]
    rw [Int.tdiv_eq_ediv (by omega) (by omega), hmax, hmin]
    congr 1
    ring

/-- Witness for C8 at the concrete fixtures. -/
theorem C8_witness :
    compute_hit_index 10 = 50 ∧
    (0 ≤ statsE.agi ∧ 0 ≤ statsE.wis ∧
      compute_evade_index statsE =
        (2 * max statsE.agi statsE.wis + min statsE.agi statsE.wis) / 3) ∧
    compute_crit_indices 10 ⟨10, 20, 10, 10, 10, 10⟩ .AGI = ⟨25, 35, 12⟩ :=
  ⟨by rw [C8_index_formulas.1 10]; norm_num,
   ⟨by decide, by decide, C8_index_formulas.2.1 statsE (by decide) (by decide)⟩,
   C8_index_formulas.2.2.2 10 10 10 10⟩

/-! ## Turn-end decay (claim C5) -/

theorem getC_setC_same (bs : BattleState) (c : CombatantID) (st : CombatantState) :
    (bs.setC c st).getC c = some st :=
  aGet_aSet_same c st bs.combatants

theorem getC_setC_ne (bs : BattleState) {c c' : CombatantID} (st : CombatantState)
    (h : c ≠ c') : (bs.setC c st).getC c' = bs.getC c' :=
  aGet_aSet_ne st bs.combatants h

theorem getC_tick_decrement_all (bs : BattleState) (c : CombatantID) :
    (tick_decrement_all bs).getC c = (bs.getC c).map tick_decrement_combatant := by
  unfold tick_decrement_all BattleState.getC
  exact aGet_map_val _ _ _

theorem end_turn_getC {bs bs' : BattleState} {c : CombatantID} {st : CombatantState}
    (h : end_turn bs = .ok bs') (hc : bs.getC c = some st) :
    ∃ st', bs'.getC c = some st' ∧
      st'.cooldowns = tick_decay st.cooldowns ∧
      st'.effects = tick_decay st.effects ∧
      st'.modifiers = decay_modifiers st.modifiers := by
  have hc1 : (tick_decrement_all { bs with tick := bs.tick + 1 }).getC c =
      some (tick_decrement_combatant st) := by
    rw [getC_tick_decrement_all]
    show (bs.getC c).map tick_decrement_combatant = _
    rw [hc]
    rfl
  simp only [end_turn] at h
  split at h
  · exact absurd h (by simp)
  · split at h
    · exact absurd h (by simp)
    · rename_i cur heq
      unfold reset_turn_slots at h
      split at h
      · exact absurd h (by simp)
      · rename_i cst heq2
        cases h
        by_cases hcc : cur = c
        · subst hcc
          have : some cst = some (tick_decrement_combatant st) := by
            rw [← heq2]
            exact hc1
          cases this
          refine ⟨_, getC_setC_same _ _ _, ?_, ?_, ?_⟩ <;> rfl
        · refine ⟨tick_decrement_combatant st, ?_, rfl, rfl, rfl⟩
          rw [getC_setC_ne _ _ hcc]
          exact hc1

theorem end_turn_iter_getC_none {e : String} :
    ∀ (k : Nat) {bs bs' : BattleState} {c : CombatantID} {st : CombatantState},
      end_turn_iter k bs = .ok bs' → bs.getC c = some st →
      (st.effects.map Prod.fst).Nodup → aGet e st.effects = none →
      effTicks bs' c e = none := by
  intro k
  induction k with
  | zero =>
    intro bs bs' c st h hc _ hget
    cases h
    simp [effTicks, hc, hget]
  | succ k ih =>
    intro bs bs' c st h hc hnd hget
    rw [end_turn_iter] at h
    split at h
    · exact absurd h (by simp)
    · rename_i bs1 heq
      obtain ⟨st1, hc1, _, heff1, _⟩ := end_turn_getC heq hc
      have hget1 : aGet e st1.effects = none := by
        rw [heff1, aGet_tick_decay e _ hnd, hget]
        rfl
      have hnd1 : (st1.effects.map Prod.fst).Nodup := by
        rw [heff1]
        exact nodup_keys_tick_decay hnd
      exact ih h hc1 hnd1 hget1

theorem end_turn_iter_effTicks {e : String} :
    ∀ (k : Nat) {bs bs' : BattleState} {c : CombatantID} {st : CombatantState} {t : Int},
      end_turn_iter k bs = .ok bs' → bs.getC c = some st →
      (st.effects.map Prod.fst).Nodup → aGet e st.effects = some t → 0 < t →
      effTicks bs' c e = if (k : Int) < t then some (t - k) else none := by
  intro k
  induction k with
  | zero =>
    intro bs bs' c st t h hc _ hget ht
    cases h
    simp [effTicks, hc, hget, ht]
  | succ k ih =>
    intro bs bs' c st t h hc hnd hget ht
    rw [end_turn_iter] at h
    split at h
    · exact absurd h (by simp)
    · rename_i bs1 heq
      obtain ⟨st1, hc1, _, heff1, _⟩ := end_turn_getC heq hc
      have hnd1 : (st1.effects.map Prod.fst).Nodup := by
        rw [heff1]
        exact nodup_keys_tick_decay hnd
      have hstep : aGet e st1.effects = if 1 < t then some (t - 1) else none := by
        rw [heff1, aGet_tick_decay e _ hnd, hget]
        rfl
      by_cases h1 : 1 < t
      · rw [if_pos h1] at hstep
        have := ih h hc1 hnd1 hstep (by omega)
        rw [this]
        have hiff : ((k : Int) < t - 1) ↔ (((k + 1 : Nat) : Int) < t) := by
          push_cast
          omega
        have hval : t - 1 - (k : Int) = t - ((k + 1 : Nat) : Int) := by
          push_cast
          ring
        rw [if_congr hiff (congrArg some hval) rfl]
      · rw [if_neg h1] at hstep
        have hnone := end_turn_iter_getC_none k h hc1 hnd1 hstep
        rw [hnone]
        have : ¬ (((k + 1 : Nat) : Int) < t) := by
          push_cast
          omega
        rw [if_neg this]

/-- C5: `turns_to_ticks(turns, n) = turns*n + 1 ≥ 1` for `turns ≥ 0`, `n ≥ 1`,
with negative turns rejected; `ticks_to_turns(ticks, n) = (max 0 ticks) // n`;
each `end_turn` decrements every cooldown/effect/modifier entry of every
combatant by exactly 1 and deletes entries reaching `≤ 0`; consequently after
`k` successful `end_turn` calls an effect entry that started at `t > 0` ticks
remains with `t - k` ticks when `k < t` and is absent otherwise (in a
2-participant battle, a 2-turn effect is stored as 5 ticks and is gone after
5 calls — see the witness). -/
theorem C5_timebase_and_decay :
    (∀ turns n : Int, 0 ≤ turns → 1 ≤ n →
      turns_to_ticks turns n = .ok (turns * n + 1) ∧ 1 ≤ turns * n + 1) ∧
    (∀ turns n : Int, turns < 0 → turns_to_ticks turns n = .error "turns must be >= 0") ∧
    (∀ ticks n : Int, 1 ≤ n → ticks_to_turns ticks n = .ok (Int.fdiv (max 0 ticks) n)) ∧
    (∀ (e : String) (m : List (String × Int)), (m.map Prod.fst).Nodup →
      aGet e (tick_decay m) = (aGet e m).bind fun t => if 1 < t then some (t - 1) else none) ∧
    (∀ (bs bs' : BattleState) (c : CombatantID) (st : CombatantState),
      end_turn bs = .ok bs' → bs.getC c = some st →
      ∃ st', bs'.getC c = some st' ∧
        st'.cooldowns = tick_decay st.cooldowns ∧
        st'.effects = tick_decay st.effects ∧
        st'.modifiers = decay_modifiers st.modifiers) ∧
    (∀ (k : Nat) (bs bs' : BattleState) (c : CombatantID) (st : CombatantState)
        (e : String) (t : Int),
      end_turn_iter k bs = .ok bs' → bs.getC c = some st →
      (st.effects.map Prod.fst).Nodup → aGet e st.effects = some t → 0 < t →
      effTicks bs' c e = if (k : Int) < t then some (t - k) else none) := by
  refine ⟨?_, ?_, ?_, ?_, ?_, ?_⟩
  · intro turns n h0 h1
    unfold turns_to_ticks
    rw [if_neg (by omega), if_neg (by omega)]
    exact ⟨rfl, by nlinarith⟩
  · intro turns n h
    unfold turns_to_ticks
    rw [if_pos h]
  · intro ticks n h1
    unfold ticks_to_turns
    rw [if_neg (by omega)]
    have harg : (if ticks < 0 then (0:Int) else ticks) = max 0 ticks := by
      by_cases h : ticks < 0
      · rw [if_pos h]
        exact (max_eq_left (by omega)).symm
      · rw [if_neg h]
        exact (max_eq_right (by omega)).symm
    rw [harg]
  · exact fun e m hnd => aGet_tick_decay e m hnd
  · exact fun bs bs' c st h hc => end_turn_getC h hc
  · exact fun k bs bs' c st e t h hc hnd hget ht =>
      end_turn_iter_effTicks k h hc hnd hget ht

/-- Witness for C5 at the concrete 2-participant fixture: 2 turns become 5
ticks and the effect is gone after exactly 5 `end_turn` calls (still present
with 1 tick after 4). -/
theorem C5_witness :
    turns_to_ticks 2 2 = .ok 5 ∧
    turns_to_ticks (-1) 2 = .error "turns must be >= 0" ∧
    ticks_to_turns 7 2 = .ok 3 ∧
    effTicks bs5after "A1" "BLEEDING" = none := by
  refine ⟨?_, ?_, ?_, ?_⟩
  · have h := (C5_timebase_and_decay.1 2 2 (by decide) (by decide)).1
    simpa using h
  · exact C5_timebase_and_decay.2.1 (-1) 2 (by decide)
  · have h := C5_timebase_and_decay.2.2.1 7 2 (by decide)
    simpa using h
  · have h := C5_timebase_and_decay.2.2.2.2.2 5 bs5ex bs5after "A1" stA5 "BLEEDING" 5
      (by decide) (by decide) (by decide) (by decide) (by decide)
    simpa using h

/-! ## Down-state handling (claim C1) -/

/-- C1 fails as stated: with the current actor A1 at 0 HP, `apply_skill`
neither skips nor refuses — it consumes the MAIN slot, executes the step
(E1's HP drops from 10 to 9), and logs no skip event at all. -/
theorem C1_counterexample :
    (bs1ex.getC "A1").map (fun s => s.hp) = some 0 ∧
    bs1ex.current_actor_id = .ok "A1" ∧
    apply_skill bs1ex skill1ex 5 [] 0 =
      .ok ⟨["SLOT: MAIN used by A1", "HP_DELTA: E1 10->9 (delta=-1)"], bs1after, [], 0⟩ ∧
    (bs1after.getC "A1").map (fun s => s.can_main) = some false := by
  decide

/-- C1 (amended): the engine never checks the current actor's HP.  A downed
current actor (HP = 0) that submits a skill acts exactly like any other
actor: the pipeline runs to completion, the declared slot is consumed, and
no skip event exists; `apply_skill` never touches `turn_index`, and
`end_turn` always advances the turn index cyclically by one regardless of
any combatant's HP. -/
theorem C1_no_down_skip :
    (∀ (bs : BattleState) (actor : CombatantID) (st : CombatantState) (skill : Skill)
        (rhp : Int) (rolls : List Int) (mids : Nat),
      bs.current_actor_id = .ok actor →
      bs.getC actor = some st →
      st.hp = 0 →
      st.can_main = true →
      skill.actor = actor →
      skill.action_type = .MAIN →
      skill.cooldown_turns = 0 →
      skill.steps = [] →
      apply_skill bs skill rhp rolls mids =
        .ok ⟨[s!"SLOT: MAIN used by {actor}"],
             bs.setC actor { st with can_main := false }, rolls, mids⟩) ∧
    (∀ bs bs' : BattleState, end_turn bs = .ok bs' →
      bs'.turn_index = (bs.turn_index + 1) % bs.turn_order.length) := by
  constructor
  · intro bs actor st skill rhp rolls mids hcur hc hhp hmain hactor htype hcd hsteps
    have huse : use_main bs actor = .ok (bs.setC actor { st with can_main := false }) := by
      unfold use_main
      rw [hcur]
      simp [hc, hmain]
    unfold apply_skill
    rw [hcur]
    simp only [hactor, htype, hcd, hsteps, huse]
    simp [getC_setC_same, run_steps]
  · intro bs bs' h
    simp only [end_turn] at h
    split at h
    · exact absurd h (by simp)
    · split at h
      · exact absurd h (by simp)
      · rename_i cur heq
        unfold reset_turn_slots at h
        split at h
        · exact absurd h (by simp)
        · cases h
          rfl

/-- Witness for C1 (amended): the downed A1 submits an empty MAIN skill,
which succeeds and consumes its MAIN slot; and a concrete `end_turn`
advances the turn index from 0 to 1. -/
theorem C1_no_down_skip_witness :
    apply_skill bs1ex skill1w 5 [] 0 =
      .ok ⟨["SLOT: MAIN used by A1"],
           bs1ex.setC "A1" { c1A with can_main := false }, [], 0⟩ ∧
    (getOk bs1ex (end_turn bs1ex)).turn_index = (bs1ex.turn_index + 1) % bs1ex.turn_order.length := by
  constructor
  · exact C1_no_down_skip.1 bs1ex "A1" c1A skill1w 5 [] 0 (by decide) (by decide)
      (by decide) (by decide) (by decide) (by decide) (by decide) (by decide)
  · exact C1_no_down_skip.2 bs1ex (getOk bs1ex (end_turn bs1ex)) (by decide)

/-! ## Chain gating (claim C3) -/

/-- C3 fails in one point: "the first step always runs" is false.  The gate
applies to the first step too: a skill whose first step carries
`require_prev_gte = 2` (above the initial previous result of 1) has that
very step skipped with a chain break, and it never executes (E1's HP stays
at 50). -/
theorem C3_counterexample :
    skill3c.steps = [step3c] ∧ step3c.require_prev_gte = 2 ∧
    apply_skill bsAE skill3c 5 [] 0 =
      .ok ⟨["SLOT: MAIN used by A1",
            "STEP_SKIPPED: kind=APPLY_HP_DELTA require_prev_gte=2 prev=1", "CHAIN_BREAK"],
           bsAE.setC "A1" { stA with can_main := false }, [], 0⟩ ∧
    ((bsAE.setC "A1" { stA with can_main := false }).getC "E1").map (fun s => s.hp) =
      some 50 := by
  decide

/-- C3 (amended): steps run strictly in order with the previous result
initialized to 1, so the first step runs whenever its `require_prev_gte` is
at most 1 (in particular under the default 0), but a first step with
threshold ≥ 2 is itself gated out; whenever the previous result is below a
step's threshold the whole remainder is aborted immediately (state, rolls
and id supply untouched) with a STEP_SKIPPED record and a CHAIN_BREAK;
otherwise the step executes and its integer result becomes the previous
result for the next step.  The scenario holds: `[ATTACK,
APPLY_EFFECT(require_prev_gte=1)]` with the attack resolving to EVADE
(rank 0) skips the APPLY_EFFECT step and applies no effect. -/
theorem C3_chain_gating :
    (∀ (actor : CombatantID) (cs : CritStat) (rhp : Int) (bs : BattleState) (prev : Int)
        (s : Step) (rest : List Step) (rolls : List Int) (mids : Nat),
      prev < s.require_prev_gte →
      run_steps actor cs rhp bs prev (s :: rest) rolls mids =
        .ok ⟨[s!"STEP_SKIPPED: kind={s.kind.str} require_prev_gte={s.require_prev_gte} prev={prev}",
              "CHAIN_BREAK"], bs, rolls, mids⟩) ∧
    (∀ (actor : CombatantID) (cs : CritStat) (rhp : Int) (bs : BattleState) (prev : Int)
        (s : Step) (rest : List Step) (rolls : List Int) (mids : Nat) (so : StepOut),
      ¬ prev < s.require_prev_gte →
      apply_step bs actor s rhp cs rolls mids = .ok so →
      run_steps actor cs rhp bs prev (s :: rest) rolls mids =
        (run_steps actor cs rhp so.bs so.result rest so.rolls so.mids).map
          (fun ro => ⟨so.events ++ ro.events, ro.bs, ro.rolls, ro.mids⟩)) ∧
    apply_skill bsAE skill3 5 [55] 0 =
      .ok ⟨["SLOT: MAIN used by A1", "STEP: ATTACK A1->E1 outcome=EVADE dmg=0",
            "STEP_SKIPPED: kind=APPLY_EFFECT require_prev_gte=1 prev=0", "CHAIN_BREAK"],
           bsAE.setC "A1" { stA with can_main := false }, [], 0⟩ ∧
    effTicks (bsAE.setC "A1" { stA with can_main := false }) "E1" "BLEEDING" = none := by
  refine ⟨?_, ?_, by decide, by decide⟩
  · intro actor cs rhp bs prev s rest rolls mids h
    simp [run_steps, h]
  · intro actor cs rhp bs prev s rest rolls mids so hge happ
    cases hr : run_steps actor cs rhp so.bs so.result rest so.rolls so.mids <;>
      simp [run_steps, hge, happ, hr, Except.map]

/-- Witness for C3 (amended) at concrete inputs: the gate fires on a first
step with threshold 2, and an executed EVADE attack hands result 0 to the
rest of the chain. -/
theorem C3_chain_gating_witness :
    ((1 : Int) < step3c.require_prev_gte ∧
      run_steps "A1" .STR 5 bsAE 1 [step3c] [] 0 =
        .ok ⟨["STEP_SKIPPED: kind=APPLY_HP_DELTA require_prev_gte=2 prev=1", "CHAIN_BREAK"],
             bsAE, [], 0⟩) ∧
    (¬ (1 : Int) < stepAtk.require_prev_gte ∧
      apply_step bsAE "A1" stepAtk 5 .AGI [55] 0 =
        .ok ⟨0, ["STEP: ATTACK A1->E1 outcome=EVADE dmg=0"], bsAE, [], 0⟩ ∧
      run_steps "A1" .AGI 5 bsAE 1 [stepAtk] [55] 0 =
        (run_steps "A1" .AGI 5 bsAE 0 [] [] 0).map
          (fun ro => ⟨["STEP: ATTACK A1->E1 outcome=EVADE dmg=0"] ++ ro.events,
                      ro.bs, ro.rolls, ro.mids⟩)) := by
  refine ⟨⟨by decide, ?_⟩, by decide, by decide, ?_⟩
  · exact C3_chain_gating.1 "A1" .STR 5 bsAE 1 step3c [] [] 0 (by decide)
  · exact C3_chain_gating.2.1 "A1" .AGI 5 bsAE 1 stepAtk [] [55] 0
      ⟨0, ["STEP: ATTACK A1->E1 outcome=EVADE dmg=0"], bsAE, [], 0⟩
      (by decide) (by decide)

/-! ## Range check and short-circuits (claim C2) -/

theorem resolve_anchor_not_missing {s : Step} {anc : Option CombatantID}
    (h : resolve_anchor s = .ok anc) : ¬ (s.target = none ∧ s.area ≠ .ALL) := by
  intro hcon
  unfold resolve_anchor at h
  rw [if_neg hcon.2, hcon.1] at h
  exact absurd h (by simp)

/-- C2 fails as stated in one point: a non-ANY step with area ALL and no
anchor is not admitted with the group check skipped — `_check_range` rejects
it outright, and the ATTACK step short-circuits with result 0 and an
OUT_OF_RANGE diagnostic. -/
theorem C2_counterexample :
    step2cex.area = .ALL ∧ step2cex.target = none ∧ step2cex.range = .MELEE ∧
    check_range bsAE "A1" none step2cex = .ok false ∧
    apply_step bsAE "A1" step2cex 5 .STR [] 0 =
      .ok ⟨0, ["OUT_OF_RANGE: ATTACK actor=A1 anchor=None range=MELEE area=ALL"],
           bsAE, [], 0⟩ := by
  decide

/-- C2 (amended): range ANY is always admitted; with an anchor, MELEE is
admitted iff actor and anchor share a group id and RANGED iff they differ; a
non-ANY step with no anchor (area ALL, no target) FAILS the range check
rather than skipping it.  A failed range check, or an empty resolved target
set, short-circuits any non-movement step with integer result 0, exactly one
diagnostic log event, an unchanged battle state, and a normal (non-error)
return. -/
theorem C2_range_and_short_circuit :
    (∀ (bs : BattleState) (a : CombatantID) (anc : Option CombatantID) (s : Step),
      s.range = .ANY → check_range bs a anc s = .ok true) ∧
    (∀ (bs : BattleState) (a : CombatantID) (s : Step),
      s.range ≠ .ANY → check_range bs a none s = .ok false) ∧
    (∀ (bs : BattleState) (a t : CombatantID) (s : Step) (sta stt : CombatantState),
      s.range = .MELEE → bs.getC a = some sta → bs.getC t = some stt →
      (check_range bs a (some t) s = .ok true ↔ sta.group_id = stt.group_id)) ∧
    (∀ (bs : BattleState) (a t : CombatantID) (s : Step) (sta stt : CombatantState),
      s.range = .RANGED → bs.getC a = some sta → bs.getC t = some stt →
      (check_range bs a (some t) s = .ok true ↔ sta.group_id ≠ stt.group_id)) ∧
    (∀ (bs : BattleState) (actor : CombatantID) (st : CombatantState) (s : Step)
        (anchor : Option CombatantID) (rhp : Int) (cs : CritStat) (rolls : List Int)
        (mids : Nat),
      bs.getC actor = some st →
      resolve_anchor s = .ok anchor →
      nonmove_fields_ok s = true →
      check_range bs actor anchor s = .ok false →
      ∃ ev, apply_step bs actor s rhp cs rolls mids = .ok ⟨0, [ev], bs, rolls, mids⟩) ∧
    (∀ (bs : BattleState) (actor : CombatantID) (st : CombatantState) (s : Step)
        (anchor : Option CombatantID) (rhp : Int) (cs : CritStat) (rolls : List Int)
        (mids : Nat),
      bs.getC actor = some st →
      resolve_anchor s = .ok anchor →
      nonmove_fields_ok s = true →
      check_range bs actor anchor s = .ok true →
      resolve_targets bs anchor s = .ok [] →
      ∃ ev, apply_step bs actor s rhp cs rolls mids = .ok ⟨0, [ev], bs, rolls, mids⟩) := by
  refine ⟨?_, ?_, ?_, ?_, ?_, ?_⟩
  · intro bs a anc s h
    unfold check_range
    rw [if_pos h]
  · intro bs a s h
    unfold check_range
    rw [if_neg h]
  · intro bs a t s sta stt hm hc1 hc2
    simp [check_range, hm, hc1, hc2]
  · intro bs a t s sta stt hm hc1 hc2
    simp [check_range, hm, hc1, hc2]
  · intro bs actor st s anchor rhp cs rolls mids hc hr hok hcr
    cases hk : s.kind
    case MOVE_ENGAGE => simp [nonmove_fields_ok, hk] at hok
    case MOVE_DISENGAGE => simp [nonmove_fields_ok, hk] at hok
    case ATTACK =>
      exact ⟨_, by
        simp only [apply_step, hc, hr, hk, hcr]
        rw [if_neg (resolve_anchor_not_missing hr)]⟩
    case APPLY_EFFECT =>
      cases het : s.effect_id with
      | none => simp [nonmove_fields_ok, hk, het] at hok
      | some e =>
        cases hed : s.effect_duration with
        | none => simp [nonmove_fields_ok, hk, het, hed] at hok
        | some dur =>
          cases hei : s.status_inflict with
          | none => simp [nonmove_fields_ok, hk, het, hed, hei] at hok
          | some inflict =>
            have hne : ¬ e = "" := by
              simp [nonmove_fields_ok, hk, het, hed, hei] at hok
              exact hok
            exact ⟨_, by
              simp only [apply_step, hc, hr, hk, het, hed, hei, hcr]
              rw [if_neg (resolve_anchor_not_missing hr), if_neg hne]⟩
    case REMOVE_EFFECT =>
      cases het : s.effect_id with
      | none => simp [nonmove_fields_ok, hk, het] at hok
      | some e =>
        have hne : ¬ e = "" := by
          simp [nonmove_fields_ok, hk, het] at hok
          exact hok
        exact ⟨_, by
          simp only [apply_step, hc, hr, hk, het, hcr]
          rw [if_neg (resolve_anchor_not_missing hr), if_neg hne]⟩
    case APPLY_MODIFIER =>
      cases hmk : s.modifier_key with
      | none => simp [nonmove_fields_ok, hk, hmk] at hok
      | some key =>
        cases hmd : s.modifier_delta with
        | none => simp [nonmove_fields_ok, hk, hmk, hmd] at hok
        | some delta =>
          cases hmu : s.modifier_duration with
          | none => simp [nonmove_fields_ok, hk, hmk, hmd, hmu] at hok
          | some dur =>
            exact ⟨_, by
              simp only [apply_step, hc, hr, hk, hmk, hmd, hmu, hcr]
              rw [if_neg (resolve_anchor_not_missing hr)]⟩
    case APPLY_HP_DELTA =>
      cases hhd : s.hp_delta with
      | none => simp [nonmove_fields_ok, hk, hhd] at hok
      | some delta =>
        exact ⟨_, by
          simp only [apply_step, hc, hr, hk, hhd, hcr]
          rw [if_neg (resolve_anchor_not_missing hr)]⟩
  · intro bs actor st s anchor rhp cs rolls mids hc hr hok hcr hrt
    cases hk : s.kind
    case MOVE_ENGAGE => simp [nonmove_fields_ok, hk] at hok
    case MOVE_DISENGAGE => simp [nonmove_fields_ok, hk] at hok
    case ATTACK =>
      exact ⟨_, by
        simp only [apply_step, hc, hr, hk, hcr, hrt]
        rw [if_neg (resolve_anchor_not_missing hr)]
        rfl⟩
    case APPLY_EFFECT =>
      cases het : s.effect_id with
      | none => simp [nonmove_fields_ok, hk, het] at hok
      | some e =>
        cases hed : s.effect_duration with
        | none => simp [nonmove_fields_ok, hk, het, hed] at hok
        | some dur =>
          cases hei : s.status_inflict with
          | none => simp [nonmove_fields_ok, hk, het, hed, hei] at hok
          | some inflict =>
            have hne : ¬ e = "" := by
              simp [nonmove_fields_ok, hk, het, hed, hei] at hok
              exact hok
            exact ⟨_, by
              simp only [apply_step, hc, hr, hk, het, hed, hei, hcr, hrt]
              rw [if_neg (resolve_anchor_not_missing hr), if_neg hne]
              rfl⟩
    case REMOVE_EFFECT =>
      cases het : s.effect_id with
      | none => simp [nonmove_fields_ok, hk, het] at hok
      | some e =>
        have hne : ¬ e = "" := by
          simp [nonmove_fields_ok, hk, het] at hok
          exact hok
        exact ⟨_, by
          simp only [apply_step, hc, hr, hk, het, hcr, hrt]
          rw [if_neg (resolve_anchor_not_missing hr), if_neg hne]
          rfl⟩
    case APPLY_MODIFIER =>
      cases hmk : s.modifier_key with
      | none => simp [nonmove_fields_ok, hk, hmk] at hok
      | some key =>
        cases hmd : s.modifier_delta with
        | none => simp [nonmove_fields_ok, hk, hmk, hmd] at hok
        | some delta =>
          cases hmu : s.modifier_duration with
          | none => simp [nonmove_fields_ok, hk, hmk, hmd, hmu] at hok
          | some dur =>
            exact ⟨_, by
              simp only [apply_step, hc, hr, hk, hmk, hmd, hmu, hcr, hrt]
              rw [if_neg (resolve_anchor_not_missing hr)]
              rfl⟩
    case APPLY_HP_DELTA =>
      cases hhd : s.hp_delta with
      | none => simp [nonmove_fields_ok, hk, hhd] at hok
      | some delta =>
        exact ⟨_, by
          simp only [apply_step, hc, hr, hk, hhd, hcr, hrt]
          rw [if_neg (resolve_anchor_not_missing hr)]
          rfl⟩

/-- Witness for C2 (amended) at concrete fixtures: an ANY step passes, a
non-ANY anchorless step fails, MELEE/RANGED reduce to the group comparison,
a cross-group MELEE attack short-circuits out of range, and a GROUP-area
attack anchored at a combatant whose group has no map entry short-circuits
on the empty target set. -/
theorem C2_range_witness :
    check_range bsAE "A1" (some "E1") stepAtk = .ok true ∧
    check_range bsAE "A1" none step2cex = .ok false ∧
    (check_range bsAE "A1" (some "E1") step2w = .ok true ↔ stA.group_id = stE.group_id) ∧
    (check_range bsAE "A1" (some "E1") step2r = .ok true ↔ stA.group_id ≠ stE.group_id) ∧
    (∃ ev, apply_step bsAE "A1" step2w 5 .STR [] 0 = .ok ⟨0, [ev], bsAE, [], 0⟩) ∧
    (∃ ev, apply_step bs2ex "A1" step2nt 5 .STR [] 0 = .ok ⟨0, [ev], bs2ex, [], 0⟩) := by
  refine ⟨?_, ?_, ?_, ?_, ?_, ?_⟩
  · exact C2_range_and_short_circuit.1 bsAE "A1" (some "E1") stepAtk (by decide)
  · exact C2_range_and_short_circuit.2.1 bsAE "A1" step2cex (by decide)
  · exact C2_range_and_short_circuit.2.2.1 bsAE "A1" "E1" step2w stA stE
      (by decide) (by decide) (by decide)
  · exact C2_range_and_short_circuit.2.2.2.1 bsAE "A1" "E1" step2r stA stE
      (by decide) (by decide) (by decide)
  · exact C2_range_and_short_circuit.2.2.2.2.1 bsAE "A1" stA step2w (some "E1") 5 .STR [] 0
      (by decide) (by decide) (by decide) (by decide)
  · exact C2_range_and_short_circuit.2.2.2.2.2 bs2ex "A1" stA step2nt (some "O1") 5 .STR [] 0
      (by decide) (by decide) (by decide) (by decide) (by decide)

/-! ## Effect accumulation and modifier stacking (claim C6) -/

/-- C6: re-applying an active effect adds the converted ticks onto the
existing remaining ticks (cumulative, never a reset) — both for a
non-resistible status (applied without a roll) and for a resistible status
whose draw succeeds; and every APPLY_MODIFIER application appends a fresh
`ModifierInstance` with a fresh id and its own ticks, leaving existing
instances untouched, so applying the same key/delta/duration twice yields
two distinct instances. -/
theorem C6_cumulative_effects_fresh_modifiers :
    (∀ (bs : BattleState) (actor tgt : CombatantID) (eff : String)
        (inflict dt dk : Int) (d : CharacterDef) (st : CombatantState) (v t : Int)
        (rolls : List Int),
      aGet tgt bs.defs = some d →
      compute_status_resist_index d.stats eff = .ok ⟨v, false⟩ →
      bs.getC tgt = some st →
      aGet eff st.effects = some t →
      ∃ evs bs',
        apply_effect_targets actor eff inflict dt dk bs [tgt] rolls =
          .ok (true, evs, bs', rolls) ∧
        effTicks bs' tgt eff = some (t + dk)) ∧
    (∀ (bs : BattleState) (actor tgt : CombatantID) (eff : String)
        (inflict dt dk : Int) (d : CharacterDef) (st : CombatantState) (v t r : Int)
        (rolls rolls' : List Int),
      aGet tgt bs.defs = some d →
      compute_status_resist_index d.stats eff = .ok ⟨v, true⟩ →
      roll_status_success inflict v rolls = .ok (⟨true, r⟩, rolls') →
      bs.getC tgt = some st →
      aGet eff st.effects = some t →
      ∃ evs bs',
        apply_effect_targets actor eff inflict dt dk bs [tgt] rolls =
          .ok (true, evs, bs', rolls') ∧
        effTicks bs' tgt eff = some (t + dk)) ∧
    (∀ (bs : BattleState) (key : String) (delta dt dk : Int) (tgt : CombatantID)
        (st : CombatantState) (mids : Nat),
      bs.getC tgt = some st →
      ∃ ev, apply_modifier_targets key delta dt dk bs [tgt] mids =
        .ok (true, [ev],
             bs.setC tgt { st with modifiers := st.modifiers ++ [⟨mids, key, delta, dk⟩] },
             mids + 1)) ∧
    (∀ (bs : BattleState) (key : String) (delta dt dk : Int) (tgt : CombatantID)
        (st : CombatantState) (mids : Nat),
      bs.getC tgt = some st →
      ∃ ev1 ev2 bs2,
        apply_modifier_targets key delta dt dk bs [tgt] mids =
          .ok (true, [ev1],
               bs.setC tgt { st with modifiers := st.modifiers ++ [⟨mids, key, delta, dk⟩] },
               mids + 1) ∧
        apply_modifier_targets key delta dt dk
            (bs.setC tgt { st with modifiers := st.modifiers ++ [⟨mids, key, delta, dk⟩] })
            [tgt] (mids + 1) =
          .ok (true, [ev2], bs2, mids + 2) ∧
        bs2.getC tgt =
          some { st with modifiers :=
                   st.modifiers ++ [⟨mids, key, delta, dk⟩, ⟨mids + 1, key, delta, dk⟩] } ∧
        (⟨mids, key, delta, dk⟩ : ModifierInstance) ≠ ⟨mids + 1, key, delta, dk⟩) := by
  have hmod : ∀ (bs : BattleState) (key : String) (delta dt dk : Int) (tgt : CombatantID)
      (st : CombatantState) (mids : Nat),
      bs.getC tgt = some st →
      ∃ ev, apply_modifier_targets key delta dt dk bs [tgt] mids =
        .ok (true, [ev],
             bs.setC tgt { st with modifiers := st.modifiers ++ [⟨mids, key, delta, dk⟩] },
             mids + 1) := by
    intro bs key delta dt dk tgt st mids hct
    exact ⟨_, by
      simp only [apply_modifier_targets, hct]
      rfl⟩
  refine ⟨?_, ?_, hmod, ?_⟩
  · intro bs actor tgt eff inflict dt dk d st v t rolls hd hres hct ht
    have heq : apply_effect_targets actor eff inflict dt dk bs [tgt] rolls =
        .ok (true,
          [s!"STATUS_CHECK: {actor}->{tgt} effect={eff} inflict={inflict} resist=NA resistible=False roll=NA success=True",
           s!"EFFECT_APPLIED: {tgt} +{eff}(turns={dt}, ticks=+{dk}, total_ticks={t + dk})"],
          bs.setC tgt { st with effects := aSet eff (t + dk) st.effects }, rolls) := by
      simp only [apply_effect_targets, hd, hres, hct, ht, Option.getD_some]
      rfl
    refine ⟨_, _, heq, ?_⟩
    simp [effTicks, getC_setC_same, aGet_aSet_same]
  · intro bs actor tgt eff inflict dt dk d st v t r rolls rolls' hd hres hroll hct ht
    have heq : apply_effect_targets actor eff inflict dt dk bs [tgt] rolls =
        .ok (true,
          [s!"STATUS_CHECK: {actor}->{tgt} effect={eff} inflict={inflict} resist={v} resistible=True roll={r} success={true}",
           s!"EFFECT_APPLIED: {tgt} +{eff}(turns={dt}, ticks=+{dk}, total_ticks={t + dk})"],
          bs.setC tgt { st with effects := aSet eff (t + dk) st.effects }, rolls') := by
      simp only [apply_effect_targets, hd, hres, hroll, hct, ht, Option.getD_some]
      rfl
    refine ⟨_, _, heq, ?_⟩
    simp [effTicks, getC_setC_same, aGet_aSet_same]
  · intro bs key delta dt dk tgt st mids hct
    obtain ⟨ev1, h1⟩ := hmod bs key delta dt dk tgt st mids hct
    obtain ⟨ev2, h2⟩ := hmod (bs.setC tgt { st with modifiers := st.modifiers ++ [⟨mids, key, delta, dk⟩] })
      key delta dt dk tgt { st with modifiers := st.modifiers ++ [⟨mids, key, delta, dk⟩] }
      (mids + 1) (getC_setC_same _ _ _)
    refine ⟨ev1, ev2, _, h1, h2, ?_, by simp⟩
    rw [getC_setC_same]
    simp

/-- Witness for C6 at the concrete fixtures: re-applying the already-active
non-resistible status (4 ticks left, 5 new ticks) leaves 9 ticks, and two
identical modifier applications stack two distinct instances. -/
theorem C6_witness :
    (∃ evs bs',
      apply_effect_targets "A1" "INSTANT_DEATH" 30 2 5 bs6ex ["E1"] [] =
        .ok (true, evs, bs', []) ∧
      effTicks bs' "E1" "INSTANT_DEATH" = some 9) ∧
    (∃ ev1 ev2 bs2,
      apply_modifier_targets "HIT" (-10) 2 5 bsAE ["E1"] 0 =
        .ok (true, [ev1],
             bsAE.setC "E1" { stE with modifiers := [⟨0, "HIT", -10, 5⟩] }, 1) ∧
      apply_modifier_targets "HIT" (-10) 2 5
          (bsAE.setC "E1" { stE with modifiers := [⟨0, "HIT", -10, 5⟩] }) ["E1"] 1 =
        .ok (true, [ev2], bs2, 2) ∧
      bs2.getC "E1" = some { stE with modifiers := [⟨0, "HIT", -10, 5⟩, ⟨1, "HIT", -10, 5⟩] } ∧
      (⟨0, "HIT", -10, 5⟩ : ModifierInstance) ≠ ⟨1, "HIT", -10, 5⟩) := by
  constructor
  · have h := C6_cumulative_effects_fresh_modifiers.1 bs6ex "A1" "E1" "INSTANT_DEATH"
      30 2 5 defE st6E 0 4 [] (by decide) (by decide) (by decide) (by decide)
    obtain ⟨evs, bs', h1, h2⟩ := h
    exact ⟨evs, bs', h1, by simpa using h2⟩
  · have h := C6_cumulative_effects_fresh_modifiers.2.2.2 bsAE "HIT" (-10) 2 5 "E1" stE 0
      (by decide)
    simpa using h

/-! ## Dispel semantics (claim C7) -/

/-- C7: a dispel draw always uses the fixed constant `DISPEL_INFLICT = 20`
and ignores the step's own `status_inflict` entirely; the draw's meaning is
inverted — a SUCCESS outcome keeps the effect and a FAIL outcome removes it;
and the categorically non-resistible status (`INSTANT_DEATH`) is an
automatic success for infliction (ticks added unconditionally, no roll
consumed) and an automatic failure for dispel (effect always retained, no
roll consumed). -/
theorem C7_dispel_semantics :
    DISPEL_INFLICT = 20 ∧
    (∀ (bs : BattleState) (actor : CombatantID) (s : Step) (v : Option Int)
        (rhp : Int) (cs : CritStat) (rolls : List Int) (mids : Nat),
      s.kind = .REMOVE_EFFECT →
      apply_step bs actor { s with status_inflict := v } rhp cs rolls mids =
        apply_step bs actor s rhp cs rolls mids) ∧
    (∀ (bs : BattleState) (actor tgt : CombatantID) (eff : String) (st : CombatantState)
        (d : CharacterDef) (v t r : Int) (rolls rolls' : List Int),
      bs.getC tgt = some st →
      aGet eff st.effects = some t →
      aGet tgt bs.defs = some d →
      compute_status_resist_index d.stats eff = .ok ⟨v, true⟩ →
      roll_status_success DISPEL_INFLICT v rolls = .ok (⟨true, r⟩, rolls') →
      ∃ evs, remove_effect_targets actor eff bs [tgt] rolls = .ok (false, evs, bs, rolls')) ∧
    (∀ (bs : BattleState) (actor tgt : CombatantID) (eff : String) (st : CombatantState)
        (d : CharacterDef) (v t r : Int) (rolls rolls' : List Int),
      bs.getC tgt = some st →
      aGet eff st.effects = some t →
      aGet tgt bs.defs = some d →
      compute_status_resist_index d.stats eff = .ok ⟨v, true⟩ →
      roll_status_success DISPEL_INFLICT v rolls = .ok (⟨false, r⟩, rolls') →
      (st.effects.map Prod.fst).Nodup →
      ∃ evs bs', remove_effect_targets actor eff bs [tgt] rolls = .ok (true, evs, bs', rolls') ∧
        effTicks bs' tgt eff = none) ∧
    (∀ (bs : BattleState) (actor tgt : CombatantID) (eff : String) (st : CombatantState)
        (d : CharacterDef) (v t : Int) (rolls : List Int),
      bs.getC tgt = some st →
      aGet eff st.effects = some t →
      aGet tgt bs.defs = some d →
      compute_status_resist_index d.stats eff = .ok ⟨v, false⟩ →
      ∃ evs, remove_effect_targets actor eff bs [tgt] rolls = .ok (false, evs, bs, rolls)) ∧
    (∀ stats : Stats, compute_status_resist_index stats "INSTANT_DEATH" = .ok ⟨0, false⟩) ∧
    (∀ (bs : BattleState) (actor tgt : CombatantID) (eff : String)
        (inflict dt dk : Int) (d : CharacterDef) (st : CombatantState) (v : Int)
        (rolls : List Int),
      aGet tgt bs.defs = some d →
      compute_status_resist_index d.stats eff = .ok ⟨v, false⟩ →
      bs.getC tgt = some st →
      ∃ evs, apply_effect_targets actor eff inflict dt dk bs [tgt] rolls =
        .ok (true, evs,
             bs.setC tgt
               { st with effects := aSet eff ((aGet eff st.effects).getD 0 + dk) st.effects },
             rolls)) := by
  refine ⟨rfl, ?_, ?_, ?_, ?_, fun stats => rfl, ?_⟩
  · intro bs actor s v rhp cs rolls mids hk
    cases s with
    | mk kind target ri rp eid ed si mkey mdelta mdur hpd rq rg ar =>
      replace hk : kind = StepKind.REMOVE_EFFECT := hk
      subst hk
      rfl
  · intro bs actor tgt eff st d v t r rolls rolls' hct hget hd hres hroll
    exact ⟨_, by
      simp only [remove_effect_targets, hct, hget, hd, hres, hroll, Option.isNone_some]
      rfl⟩
  · intro bs actor tgt eff st d v t r rolls rolls' hct hget hd hres hroll hnd
    have heq : remove_effect_targets actor eff bs [tgt] rolls =
        .ok (true,
          [s!"DISPEL_CHECK: {actor}->{tgt} effect={eff} inflict={DISPEL_INFLICT} resist={v} resistible=True roll={r} success={false}",
           s!"DISPEL_SUCCESS: {tgt} -{eff}"],
          bs.setC tgt { st with effects := aDel eff st.effects }, rolls') := by
      simp only [remove_effect_targets, hct, hget, hd, hres, hroll, Option.isNone_some]
      rfl
    refine ⟨_, _, heq, ?_⟩
    simp [effTicks, getC_setC_same, aGet_aDel_same hnd]
  · intro bs actor tgt eff st d v t rolls hct hget hd hres
    exact ⟨_, by
      simp only [remove_effect_targets, hct, hget, hd, hres, Option.isNone_some]
      rfl⟩
  · intro bs actor tgt eff inflict dt dk d st v rolls hd hres hct
    exact ⟨_, by
      simp only [apply_effect_targets, hd, hres, hct]
      rfl⟩

/-- Witness for C7 at the concrete fixtures: E1 holds BLEEDING (resist 7);
a dispel draw of 3 (SUCCESS at inflict 20) keeps the effect, a draw of 25
(FAIL) removes it; the step-level result is unaffected by any caller-supplied
`status_inflict`; and `INSTANT_DEATH` is applied unconditionally with no
roll and can never be dispelled. -/
theorem C7_witness :
    DISPEL_INFLICT = 20 ∧
    apply_step bs7ex "A1" { step7 with status_inflict := some 999 } 5 .STR [3] 0 =
      apply_step bs7ex "A1" step7 5 .STR [3] 0 ∧
    (∃ evs, remove_effect_targets "A1" "BLEEDING" bs7ex ["E1"] [3] =
      .ok (false, evs, bs7ex, [])) ∧
    (∃ evs bs', remove_effect_targets "A1" "BLEEDING" bs7ex ["E1"] [25] =
      .ok (true, evs, bs', []) ∧ effTicks bs' "E1" "BLEEDING" = none) ∧
    (∃ evs, remove_effect_targets "A1" "INSTANT_DEATH" bs6ex ["E1"] [7] =
      .ok (false, evs, bs6ex, [7])) ∧
    compute_status_resist_index statsE "INSTANT_DEATH" = .ok ⟨0, false⟩ ∧
    (∃ evs, apply_effect_targets "A1" "INSTANT_DEATH" 30 2 5 bs6ex ["E1"] [] =
      .ok (true, evs,
           bs6ex.setC "E1"
             { st6E with
               effects := aSet "INSTANT_DEATH" ((aGet "INSTANT_DEATH" st6E.effects).getD 0 + 5) st6E.effects },
           [])) := by
  refine ⟨C7_dispel_semantics.1, ?_, ?_, ?_, ?_, C7_dispel_semantics.2.2.2.2.2.1 statsE, ?_⟩
  · exact C7_dispel_semantics.2.1 bs7ex "A1" step7 (some 999) 5 .STR [3] 0 (by decide)
  · exact C7_dispel_semantics.2.2.1 bs7ex "A1" "E1" "BLEEDING" st7E defE 7 7 3 [3] []
      (by decide) (by decide) (by decide) (by decide) (by decide)
  · exact C7_dispel_semantics.2.2.2.1 bs7ex "A1" "E1" "BLEEDING" st7E defE 7 7 25 [25] []
      (by decide) (by decide) (by decide) (by decide) (by decide) (by decide)
  · exact C7_dispel_semantics.2.2.2.2.1 bs6ex "A1" "E1" "INSTANT_DEATH" st6E defE 0 4 [7]
      (by decide) (by decide) (by decide) (by decide)
  · exact C7_dispel_semantics.2.2.2.2.2.2 bs6ex "A1" "E1" "INSTANT_DEATH" 30 2 5 defE st6E 0 []
      (by decide) (by decide) (by decide)

/-! ## Formation moves (claim C9) -/

theorem le_foldl_max (ps : List (GroupID × List CombatantID)) :
    ∀ init : GroupID, init ≤ ps.foldl (fun m q => max m q.1) init := by
  induction ps with
  | nil => intro init; simp
  | cons q qs ih =>
    intro init
    simp only [List.foldl_cons]
    exact le_trans (le_max_left _ _) (ih (max init q.1))

theorem mem_le_foldl_max (ps : List (GroupID × List CombatantID)) :
    ∀ (init g : GroupID) (l : List CombatantID), (g, l) ∈ ps →
      g ≤ ps.foldl (fun m q => max m q.1) init := by
  induction ps with
  | nil => intro _ _ _ h; cases h
  | cons q qs ih =>
    intro init g l h
    cases h with
    | head =>
      simp only [List.foldl_cons]
      exact le_trans (le_max_right _ _) (le_foldl_max qs _)
    | tail _ hmem =>
      simp only [List.foldl_cons]
      exact ih _ g l hmem

theorem foldl_max_attained (ps : List (GroupID × List CombatantID)) :
    ∀ init : GroupID, ps.foldl (fun m q => max m q.1) init = init ∨
      ∃ q ∈ ps, ps.foldl (fun m q => max m q.1) init = q.1 := by
  induction ps with
  | nil => intro init; left; rfl
  | cons q qs ih =>
    intro init
    rcases ih (max init q.1) with h | ⟨p, hp, hres⟩
    · simp only [List.foldl_cons]
      rcases max_cases init q.1 with ⟨hm, _⟩ | ⟨hm, _⟩
      · left; rw [h, hm]
      · right; exact ⟨q, List.mem_cons_self _ _, by rw [h, hm]⟩
    · right
      refine ⟨p, List.mem_cons_of_mem _ hp, ?_⟩
      simp only [List.foldl_cons]
      exact hres

theorem mem_lt_next_group_id {bs : BattleState} {g : GroupID} {l : List CombatantID}
    (h : (g, l) ∈ bs.groups) : g < next_group_id bs := by
  cases hg : bs.groups with
  | nil => rw [hg] at h; cases h
  | cons p ps =>
    rw [hg] at h
    have hnext : next_group_id bs = ps.foldl (fun m q => max m q.1) p.1 + 1 := by
      unfold next_group_id
      rw [hg]
    have hle : g ≤ ps.foldl (fun m q => max m q.1) p.1 := by
      cases h with
      | head => exact le_foldl_max ps g
      | tail _ hmem => exact mem_le_foldl_max ps p.1 g l hmem
    rw [hnext]
    exact Int.lt_add_one_iff.mpr hle

theorem aGet_append {κ α : Type} [DecidableEq κ] (k : κ) (l1 l2 : List (κ × α)) :
    aGet k (l1 ++ l2) =
      match aGet k l1 with
      | some v => some v
      | none => aGet k l2 := by
  induction l1 with
  | nil => simp [aGet]
  | cons p ps ih =>
    by_cases h : p.1 = k <;> simp [aGet, h, ih]

/-- C9 fails as stated in one point: `engage(a, a)` with actor = target, a
trivial member of "the same group" as itself, raises a `ValueError` instead
of returning as a no-op. -/
theorem C9_counterexample :
    (bs9ex.getC "A1").map (fun s => s.group_id) = some 0 ∧
    aGet 0 bs9ex.groups = some ["A1", "B1"] ∧
    "A1" ∈ ["A1", "B1"] ∧
    engage bs9ex "A1" "A1" = .error "ENGAGE: actor and target must be different." := by
  decide

/-- C9 (amended): for distinct combatants already in the same group,
`engage` is a no-op returning the state unchanged (`engage(a, a)` instead
raises); otherwise engage removes the actor from its old group — deleting
that group's entry the moment it empties — appends it to the target's
group, and updates the actor's group id.  `disengage` allocates
`next_group_id` (0 on an empty group map, otherwise strictly greater than
every existing id and equal to some existing id + 1, i.e. max + 1), moves
the actor alone into it, and deletes the old group's entry when the actor
was its sole member. -/
theorem C9_engage_disengage :
    (∀ (bs : BattleState) (a t : CombatantID) (sta stt : CombatantState),
      a ≠ t → bs.getC a = some sta → bs.getC t = some stt →
      sta.group_id = stt.group_id → engage bs a t = .ok bs) ∧
    (∀ (bs : BattleState) (a t : CombatantID) (sta stt : CombatantState)
        (la lt : List CombatantID),
      a ≠ t → bs.getC a = some sta → bs.getC t = some stt →
      sta.group_id ≠ stt.group_id →
      aGet sta.group_id bs.groups = some la → a ∈ la →
      aGet stt.group_id bs.groups = some lt → a ∉ lt →
      (bs.groups.map Prod.fst).Nodup →
      ∃ bs', engage bs a t = .ok bs' ∧
        aGet sta.group_id bs'.groups =
          (if la.erase a = [] then none else some (la.erase a)) ∧
        aGet stt.group_id bs'.groups = some (lt ++ [a]) ∧
        (bs'.getC a).map (fun s => s.group_id) = some stt.group_id) ∧
    (∀ (bs : BattleState) (a : CombatantID) (sta : CombatantState)
        (la : List CombatantID),
      bs.getC a = some sta →
      aGet sta.group_id bs.groups = some la → a ∈ la →
      (bs.groups.map Prod.fst).Nodup →
      ∃ bs', disengage bs a = .ok (next_group_id bs, bs') ∧
        aGet (next_group_id bs) bs'.groups = some [a] ∧
        aGet sta.group_id bs'.groups =
          (if la.erase a = [] then none else some (la.erase a)) ∧
        (bs'.getC a).map (fun s => s.group_id) = some (next_group_id bs)) ∧
    (∀ bs : BattleState, bs.groups = [] → next_group_id bs = 0) ∧
    (∀ (bs : BattleState) (g : GroupID) (l : List CombatantID),
      (g, l) ∈ bs.groups → g < next_group_id bs) ∧
    (∀ bs : BattleState, bs.groups ≠ [] →
      ∃ g l, (g, l) ∈ bs.groups ∧ next_group_id bs = g + 1) := by
  refine ⟨?_, ?_, ?_, ?_, fun bs g l h => mem_lt_next_group_id h, ?_⟩
  · intro bs a t sta stt hne hca hct hgid
    simp only [engage, hca, hct]
    rw [if_neg hne, if_pos hgid]
  · intro bs a t sta stt la lt hne hca hct hgne hla hmem hlt hnmem hnd
    set g1 : List (GroupID × List CombatantID) :=
      (if la.erase a = [] then aDel sta.group_id bs.groups
       else aSet sta.group_id (la.erase a) bs.groups) with hg1
    have hrm : remove_member bs sta.group_id a = .ok { bs with groups := g1 } := by
      rw [hg1]
      simp only [remove_member, hla]
      rw [if_pos hmem]
    have hgt1 : aGet stt.group_id g1 = some lt := by
      rw [hg1]
      by_cases he : la.erase a = []
      · rw [if_pos he, aGet_aDel_ne _ hgne]
        exact hlt
      · rw [if_neg he, aGet_aSet_ne _ _ hgne]
        exact hlt
    have hadd : add_member { bs with groups := g1 } stt.group_id a =
        .ok { bs with groups := aSet stt.group_id (lt ++ [a]) g1 } := by
      simp only [add_member, hgt1]
      rw [if_neg hnmem]
    have hca' : aGet a bs.combatants = some sta := hca
    refine ⟨({ bs with groups := aSet stt.group_id (lt ++ [a]) g1 }).setC a
        { sta with group_id := stt.group_id }, ?_, ?_, ?_, ?_⟩
    · simp only [engage, hca, hct]
      rw [if_neg hne, if_neg hgne]
      simp only [hrm, hadd, BattleState.getC, hca']
    · show aGet sta.group_id (aSet stt.group_id (lt ++ [a]) g1) = _
      rw [aGet_aSet_ne _ _ (Ne.symm hgne), hg1]
      by_cases he : la.erase a = []
      · rw [if_pos he, if_pos he]
        exact aGet_aDel_same hnd
      · rw [if_neg he, if_neg he]
        exact aGet_aSet_same _ _ _
    · show aGet stt.group_id (aSet stt.group_id (lt ++ [a]) g1) = _
      exact aGet_aSet_same _ _ _
    · rw [getC_setC_same]
      rfl
  · intro bs a sta la hca hla hmem hnd
    have hgane : sta.group_id ≠ next_group_id bs := by
      have hlt := mem_lt_next_group_id (mem_of_aGet_some hla)
      exact fun heq => lt_irrefl _ (heq ▸ hlt)
    have hfresh : aGet (next_group_id bs) bs.groups = none := by
      cases hg : aGet (next_group_id bs) bs.groups with
      | none => rfl
      | some l2 =>
        have hlt := mem_lt_next_group_id (mem_of_aGet_some hg)
        exact absurd hlt (lt_irrefl _)
    set g1 : List (GroupID × List CombatantID) :=
      (if la.erase a = [] then aDel sta.group_id bs.groups
       else aSet sta.group_id (la.erase a) bs.groups) with hg1
    have hrm : remove_member bs sta.group_id a = .ok { bs with groups := g1 } := by
      rw [hg1]
      simp only [remove_member, hla]
      rw [if_pos hmem]
    have hg1none : aGet (next_group_id bs) g1 = none := by
      rw [hg1]
      by_cases he : la.erase a = []
      · rw [if_pos he, aGet_aDel_ne _ hgane]
        exact hfresh
      · rw [if_neg he, aGet_aSet_ne _ _ hgane]
        exact hfresh
    have hadd : add_member { bs with groups := g1 } (next_group_id bs) a =
        .ok { bs with groups := g1 ++ [(next_group_id bs, [a])] } := by
      simp only [add_member, hg1none]
    have hca' : aGet a bs.combatants = some sta := hca
    refine ⟨({ bs with groups := g1 ++ [(next_group_id bs, [a])] }).setC a
        { sta with group_id := next_group_id bs }, ?_, ?_, ?_, ?_⟩
    · simp only [disengage, hca]
      simp only [hrm, hadd, BattleState.getC, hca']
    · show aGet (next_group_id bs) (g1 ++ [(next_group_id bs, [a])]) = _
      rw [aGet_append, hg1none]
      simp [aGet]
    · show aGet sta.group_id (g1 ++ [(next_group_id bs, [a])]) = _
      rw [aGet_append, hg1]
      by_cases he : la.erase a = []
      · rw [if_pos he, if_pos he, aGet_aDel_same hnd]
        simp [aGet, Ne.symm hgane]
      · rw [if_neg he, if_neg he, aGet_aSet_same]
    · rw [getC_setC_same]
      rfl
  · intro bs h
    simp [next_group_id, h]
  · intro bs h
    cases hg : bs.groups with
    | nil => exact absurd hg h
    | cons p ps =>
      have hnext : next_group_id bs = ps.foldl (fun m q => max m q.1) p.1 + 1 := by
        unfold next_group_id
        rw [hg]
      rcases foldl_max_attained ps p.1 with hmax | ⟨q, hq, hmax⟩
      · exact ⟨p.1, p.2, by simp, by rw [hnext, hmax]⟩
      · exact ⟨q.1, q.2, List.mem_cons_of_mem _ (by simpa using hq), by rw [hnext, hmax]⟩

/-- Witness for C9 (amended) at the three-combatant fixture: a same-group
engage is a no-op; engaging E1 moves A1 from group 0 (leaving B1) into
group 1; disengaging the sole member E1 of group 1 removes that entry
entirely and allocates group 2 = max(0, 1) + 1. -/
theorem C9_witness :
    engage bs9ex "A1" "B1" = .ok bs9ex ∧
    (∃ bs', engage bs9ex "A1" "E1" = .ok bs' ∧
      aGet 0 bs'.groups = (if ["A1", "B1"].erase "A1" = [] then none
                           else some (["A1", "B1"].erase "A1")) ∧
      aGet 1 bs'.groups = some (["E1"] ++ ["A1"]) ∧
      (bs'.getC "A1").map (fun s => s.group_id) = some 1) ∧
    (∃ bs', disengage bs9ex "E1" = .ok (next_group_id bs9ex, bs') ∧
      aGet (next_group_id bs9ex) bs'.groups = some ["E1"] ∧
      aGet 1 bs'.groups = (if ["E1"].erase "E1" = [] then none
                           else some (["E1"].erase "E1")) ∧
      (bs'.getC "E1").map (fun s => s.group_id) = some (next_group_id bs9ex)) ∧
    next_group_id bs9ex = 2 ∧
    (0 : GroupID) < next_group_id bs9ex := by
  refine ⟨?_, ?_, ?_, by decide, ?_⟩
  · exact C9_engage_disengage.1 bs9ex "A1" "B1"
      (mkCombatantState "A1" .ALLY 10 10 0) (mkCombatantState "B1" .ALLY 10 10 0)
      (by decide) (by decide) (by decide) (by decide)
  · exact C9_engage_disengage.2.1 bs9ex "A1" "E1"
      (mkCombatantState "A1" .ALLY 10 10 0) (mkCombatantState "E1" .ENEMY 10 10 1)
      ["A1", "B1"] ["E1"]
      (by decide) (by decide) (by decide) (by decide) (by decide) (by decide)
      (by decide) (by decide) (by decide)
  · exact C9_engage_disengage.2.2.1 bs9ex "E1"
      (mkCombatantState "E1" .ENEMY 10 10 1) ["E1"]
      (by decide) (by decide) (by decide) (by decide)
  · exact C9_engage_disengage.2.2.2.2.1 bs9ex 0 ["A1", "B1"] (by decide)

/-! ## Modifier non-influence (claim C10) -/

theorem modEquivC_fields {s1 s2 : CombatantState} (h : modEquivC s1 s2 = true) :
    s1.cid = s2.cid ∧ s1.team = s2.team ∧ s1.max_hp = s2.max_hp ∧ s1.hp = s2.hp ∧
    s1.group_id = s2.group_id ∧ s1.can_main = s2.can_main ∧ s1.can_sub = s2.can_sub ∧
    s1.cooldowns = s2.cooldowns ∧ s1.effects = s2.effects ∧ s1.flags = s2.flags := by
  simp only [modEquivC, Bool.and_eq_true, beq_iff_eq] at h
  tauto

theorem modEquivC_setHp {s1 s2 : CombatantState} (h : modEquivC s1 s2 = true) (v : Int) :
    modEquivC (s1.setHp v) (s2.setHp v) = true := by
  obtain ⟨h1, h2, h3, h4, h5, h6, h7, h8, h9, h10⟩ := modEquivC_fields h
  simp [modEquivC, CombatantState.setHp, h1, h2, h3, h4, h5, h6, h7, h8, h9, h10]

theorem modEquivL_getC : ∀ {l1 l2 : List (CombatantID × CombatantState)},
    modEquivL l1 l2 = true → ∀ c : CombatantID,
    (aGet c l1 = none ∧ aGet c l2 = none) ∨
    (∃ s1 s2, aGet c l1 = some s1 ∧ aGet c l2 = some s2 ∧ modEquivC s1 s2 = true) := by
  intro l1
  induction l1 with
  | nil =>
    intro l2 h c
    cases l2 with
    | nil => exact Or.inl ⟨rfl, rfl⟩
    | cons q qs => simp [modEquivL] at h
  | cons p ps ih =>
    intro l2 h c
    cases l2 with
    | nil => simp [modEquivL] at h
    | cons q qs =>
      simp only [modEquivL, Bool.and_eq_true, beq_iff_eq] at h
      obtain ⟨⟨hk, hc⟩, hrest⟩ := h
      by_cases hc1 : p.1 = c
      · right
        refine ⟨p.2, q.2, by simp [aGet, hc1], ?_, hc⟩
        have hq1 : q.1 = c := by rw [← hk]; exact hc1
        simp [aGet, hq1]
      · have hq1 : ¬ q.1 = c := by rw [← hk]; exact hc1
        rcases ih hrest c with ⟨hn1, hn2⟩ | ⟨s1, s2, hs1, hs2, hcc⟩
        · exact Or.inl ⟨by simp [aGet, hc1, hn1], by simp [aGet, hq1, hn2]⟩
        · exact Or.inr ⟨s1, s2, by simp [aGet, hc1, hs1], by simp [aGet, hq1, hs2], hcc⟩

theorem modEquivL_aSet : ∀ {l1 l2 : List (CombatantID × CombatantState)},
    modEquivL l1 l2 = true → ∀ (c : CombatantID) {s1 s2 : CombatantState},
    modEquivC s1 s2 = true → modEquivL (aSet c s1 l1) (aSet c s2 l2) = true := by
  intro l1
  induction l1 with
  | nil =>
    intro l2 h c s1 s2 hs
    cases l2 with
    | nil => simp [aSet, modEquivL, hs]
    | cons q qs => simp [modEquivL] at h
  | cons p ps ih =>
    intro l2 h c s1 s2 hs
    cases l2 with
    | nil => simp [modEquivL] at h
    | cons q qs =>
      simp only [modEquivL, Bool.and_eq_true, beq_iff_eq] at h
      obtain ⟨⟨hk, hc⟩, hrest⟩ := h
      by_cases hc1 : p.1 = c
      · have hq1 : q.1 = c := by rw [← hk]; exact hc1
        simp [aSet, hc1, hq1, modEquivL, hs, hrest]
      · have hq1 : ¬ q.1 = c := by rw [← hk]; exact hc1
        simp [aSet, hc1, hq1, modEquivL, hk, hc, ih hrest c hs]

theorem modEquiv_fields {bs1 bs2 : BattleState} (h : modEquiv bs1 bs2 = true) :
    bs1.defs = bs2.defs ∧ bs1.turn_order = bs2.turn_order ∧
    bs1.turn_index = bs2.turn_index ∧ bs1.tick = bs2.tick ∧
    bs1.groups = bs2.groups ∧ bs1.ended = bs2.ended ∧
    modEquivL bs1.combatants bs2.combatants = true := by
  simp only [modEquiv, Bool.and_eq_true, beq_iff_eq] at h
  tauto

theorem modEquiv_setC {bs1 bs2 : BattleState} (h : modEquiv bs1 bs2 = true)
    (c : CombatantID) {s1 s2 : CombatantState} (hs : modEquivC s1 s2 = true) :
    modEquiv (bs1.setC c s1) (bs2.setC c s2) = true := by
  obtain ⟨h1, h2, h3, h4, h5, h6, h7⟩ := modEquiv_fields h
  simp [modEquiv, BattleState.setC, h1, h2, h3, h4, h5, h6, modEquivL_aSet h7 c hs]

theorem compute_attack_indices_defs_only (bs1 bs2 : BattleState) (a d : CombatantID)
    (cs : CritStat) (m : IndexModifiers) (hdefs : bs1.defs = bs2.defs) :
    compute_attack_indices bs1 a d cs m = compute_attack_indices bs2 a d cs m := by
  unfold compute_attack_indices compute_base_hit_evasion compute_base_crit
  rw [hdefs]

theorem basic_attack_modEquiv {bs1 bs2 : BattleState} {a d : CombatantID}
    {m : IndexModifiers} {cs : CritStat} {rolls : List Int} {r : AttackResult}
    {bs1' : BattleState} {rolls' : List Int}
    (h : modEquiv bs1 bs2 = true)
    (hrun : basic_attack bs1 a d m cs rolls = .ok (r, bs1', rolls')) :
    ∃ bs2', basic_attack bs2 a d m cs rolls = .ok (r, bs2', rolls') ∧
      modEquiv bs1' bs2' = true := by
  have hdefs : bs1.defs = bs2.defs := (modEquiv_fields h).1
  have hidx := compute_attack_indices_defs_only bs1 bs2 a d cs m hdefs
  unfold basic_attack at hrun ⊢
  rw [← hidx]
  cases hci : compute_attack_indices bs1 a d cs m with
  | error e => simp [hci] at hrun
  | ok indices =>
    simp only [hci] at hrun ⊢
    cases hhc : hit_check indices.hit_eva.hit indices.hit_eva.evade rolls with
    | error e => simp [hhc] at hrun
    | ok pr =>
      obtain ⟨hit, rolls1⟩ := pr
      simp only [hhc] at hrun ⊢
      by_cases hev : hit.outcome = HitOutcome.EVADE
      · rw [if_pos hev] at hrun ⊢
        cases hrun
        exact ⟨bs2, rfl, h⟩
      · rw [if_neg hev] at hrun ⊢
        cases hcc : crit_check indices.crit.weak indices.crit.strong indices.crit.critical rolls1 with
        | error e => simp [hcc] at hrun
        | ok cr =>
          obtain ⟨crit, rolls2⟩ := cr
          simp only [hcc] at hrun ⊢
          rcases modEquivL_getC (modEquiv_fields h).2.2.2.2.2.2 d with ⟨hn1, hn2⟩ |
            ⟨s1, s2, hs1, hs2, hcs⟩
          · have hg1 : bs1.getC d = none := hn1
            simp [hg1] at hrun
          · have hg1 : bs1.getC d = some s1 := hs1
            have hg2 : bs2.getC d = some s2 := hs2
            simp only [hg1] at hrun
            simp only [hg2]
            cases hrun
            have hhp : s1.hp = s2.hp := (modEquivC_fields hcs).2.2.2.1
            refine ⟨_, rfl, ?_⟩
            rw [← hhp]
            exact modEquiv_setC h d (modEquivC_setHp hcs _)

theorem attack_targets_modEquiv : ∀ (tgts : List CombatantID) {bs1 bs2 : BattleState}
    {actor : CombatantID} {cs : CritStat} {rolls : List Int} {best : Int}
    {evs : List String} {bs1' : BattleState} {rolls' : List Int},
    modEquiv bs1 bs2 = true →
    attack_targets actor cs bs1 tgts rolls = .ok (best, evs, bs1', rolls') →
    ∃ bs2', attack_targets actor cs bs2 tgts rolls = .ok (best, evs, bs2', rolls') ∧
      modEquiv bs1' bs2' = true := by
  intro tgts
  induction tgts with
  | nil =>
    intro bs1 bs2 actor cs rolls best evs bs1' rolls' h hrun
    cases hrun
    exact ⟨bs2, rfl, h⟩
  | cons tgt rest ih =>
    intro bs1 bs2 actor cs rolls best evs bs1' rolls' h hrun
    unfold attack_targets at hrun ⊢
    cases hba : basic_attack bs1 actor tgt {} cs rolls with
    | error e => simp [hba] at hrun
    | ok out =>
      obtain ⟨r, bsx, rollsx⟩ := out
      simp only [hba] at hrun
      obtain ⟨bs2x, hba2, hx⟩ := basic_attack_modEquiv h hba
      simp only [hba2]
      cases hrec : attack_targets actor cs bsx rest rollsx with
      | error e => simp [hrec] at hrun
      | ok out2 =>
        obtain ⟨b2, e2, bsy, rollsy⟩ := out2
        simp only [hrec] at hrun
        obtain ⟨bs2y, hrec2, hy⟩ := ih hx hrec
        simp only [hrec2]
        cases hrun
        exact ⟨bs2y, rfl, hy⟩

/-- C10: stored modifier instances never influence attack or status
resolution.  `compute_attack_indices` reads only the immutable definitions,
so two battle states with equal `defs` produce equal attack indices for any
caller-supplied `IndexModifiers`; for two states identical except for the
combatants' modifier lists (`modEquiv`), a basic attack with the same rolls
produces the identical result record (hit flag, outcome, damage) and rolls,
and the whole ATTACK-step loop produces the identical best rank and events —
while preserving the equivalence; the defs consulted by the status-resist
path are likewise equal; and the ATTACK step's `IndexModifiers` argument is
the all-zero default. -/
theorem C10_modifiers_never_influence :
    (∀ (bs1 bs2 : BattleState) (a d : CombatantID) (cs : CritStat) (m : IndexModifiers),
      bs1.defs = bs2.defs →
      compute_attack_indices bs1 a d cs m = compute_attack_indices bs2 a d cs m) ∧
    (∀ (bs1 bs2 : BattleState) (a d : CombatantID) (m : IndexModifiers) (cs : CritStat)
        (rolls : List Int) (r : AttackResult) (bs1' : BattleState) (rolls' : List Int),
      modEquiv bs1 bs2 = true →
      basic_attack bs1 a d m cs rolls = .ok (r, bs1', rolls') →
      ∃ bs2', basic_attack bs2 a d m cs rolls = .ok (r, bs2', rolls') ∧
        modEquiv bs1' bs2' = true) ∧
    (∀ (tgts : List CombatantID) (bs1 bs2 : BattleState) (actor : CombatantID)
        (cs : CritStat) (rolls : List Int) (best : Int) (evs : List String)
        (bs1' : BattleState) (rolls' : List Int),
      modEquiv bs1 bs2 = true →
      attack_targets actor cs bs1 tgts rolls = .ok (best, evs, bs1', rolls') →
      ∃ bs2', attack_targets actor cs bs2 tgts rolls = .ok (best, evs, bs2', rolls') ∧
        modEquiv bs1' bs2' = true) ∧
    (∀ (bs1 bs2 : BattleState) (tgt : CombatantID),
      modEquiv bs1 bs2 = true → aGet tgt bs1.defs = aGet tgt bs2.defs) ∧
    ({} : IndexModifiers) = ⟨0, 0, 0, 0, 0⟩ := by
  refine ⟨fun bs1 bs2 a d cs m h => compute_attack_indices_defs_only bs1 bs2 a d cs m h,
          fun bs1 bs2 a d m cs rolls r bs1' rolls' h hrun => basic_attack_modEquiv h hrun,
          fun tgts bs1 bs2 actor cs rolls best evs bs1' rolls' h hrun =>
            attack_targets_modEquiv tgts h hrun,
          fun bs1 bs2 tgt h => by rw [(modEquiv_fields h).1],
          rfl⟩

/-- Witness for C10: `bsMod` differs from `bsAE` only by a stored modifier
instance on A1 (with a huge +50 HIT delta); the same attack with the same
rolls yields the identical outcome and damage. -/
theorem C10_witness :
    modEquiv bsAE bsMod = true ∧
    compute_attack_indices bsAE "A1" "E1" .AGI {} =
      compute_attack_indices bsMod "A1" "E1" .AGI {} ∧
    (∃ bs2', basic_attack bsMod "A1" "E1" {} .AGI [1, 1] =
        .ok (⟨true, .WEAK, 1⟩, bs2', []) ∧
      modEquiv (bsAE.setC "E1" (stE.setHp (stE.hp - 1))) bs2' = true) := by
  refine ⟨by decide, ?_, ?_⟩
  · exact C10_modifiers_never_influence.1 bsAE bsMod "A1" "E1" .AGI {} (by decide)
  · exact C10_modifiers_never_influence.2.1 bsAE bsMod "A1" "E1" {} .AGI [1, 1]
      ⟨true, .WEAK, 1⟩ (bsAE.setC "E1" (stE.setHp (stE.hp - 1))) []
      (by decide) (by decide)

end BattleSys
